import Mathlib

/-!
Verification of the Financial Twin Simulation Engine
(`app/services/digital_twin_service.py` with helpers from `app/utils/math.py`
and `app/utils/date_utils.py`).

Monetary quantities are embedded as exact rationals (`ℚ`); Python ints are
embedded as `ℤ`; calendar dates as a `SimDate` record.  `round_currency`
mirrors `Decimal.quantize(…, ROUND_HALF_UP)` (ties away from zero) at two
decimal places, and `pyRound2` mirrors Python's built-in `round(x, 2)`
(ties to even).
-/

/-- `ROUND_HALF_UP` (ties away from zero) to the nearest integer,
as used by `Decimal.quantize` in `round_currency`. -/
def roundHalfUpInt (x : ℚ) : ℤ :=
  if 0 ≤ x then ⌊x + 1/2⌋ else -⌊-x + 1/2⌋

/-- `app/utils/math.py::round_currency`: round to two decimal places with
`ROUND_HALF_UP`. -/
def round_currency (x : ℚ) : ℚ :=
  (roundHalfUpInt (x * 100) : ℚ) / 100

/-- Banker's rounding (ties to even) to the nearest integer, as used by
Python's built-in `round`. -/
def roundHalfEvenInt (x : ℚ) : ℤ :=
  let f := ⌊x⌋
  let r := x - f
  if r < 1/2 then f
  else if 1/2 < r then f + 1
  else if f % 2 = 0 then f else f + 1

/-- Python's `round(x, 2)` (ties to even) at two decimal places. -/
def pyRound2 (x : ℚ) : ℚ :=
  (roundHalfEvenInt (x * 100) : ℚ) / 100

/-- A calendar date (`datetime.date`): year, month (1–12), day (1–31). -/
structure SimDate where
  year : ℤ
  month : ℕ
  day : ℕ
  deriving DecidableEq

/-- Python `date` comparison `a <= b` (lexicographic on year, month, day). -/
def dateLE (a b : SimDate) : Bool :=
  if a.year < b.year then true
  else if b.year < a.year then false
  else if a.month < b.month then true
  else if b.month < a.month then false
  else if a.day ≤ b.day then true else false

/-- Leap-year rule used by the Gregorian calendar. -/
def isLeapYear (y : ℤ) : Bool :=
  y % 4 == 0 && (y % 100 != 0 || y % 400 == 0)

/-- Number of days in a month of a given year. -/
def daysInMonth (y : ℤ) (m : ℕ) : ℕ :=
  if m = 2 then (if isLeapYear y then 29 else 28)
  else if m = 4 ∨ m = 6 ∨ m = 9 ∨ m = 11 then 30
  else 31

/-- `app/utils/date_utils.py::add_months` via `relativedelta(months=k)`:
advance the month index, clamping the day to the end of the target month.
The simulation only ever adds a non-negative count. -/
def add_months (d : SimDate) (k : ℕ) : SimDate :=
  let t := d.month - 1 + k
  let y := d.year + (t / 12 : ℕ)
  let m := t % 12 + 1
  { year := y, month := m, day := min d.day (daysInMonth y m) }

/-- Zero-pad a numeral below 10 to two digits. -/
def pad2 (n : ℕ) : String :=
  if n < 10 then "0" ++ toString n else toString n

/-- `app/utils/date_utils.py::get_year_month_string`: `strftime("%Y-%m")`. -/
def get_year_month_string (d : SimDate) : String :=
  toString d.year ++ "-" ++ pad2 d.month

/-- Python `date.isoformat()`: `YYYY-MM-DD`. -/
def isoFormat (d : SimDate) : String :=
  toString d.year ++ "-" ++ pad2 d.month ++ "-" ++ pad2 d.day

/-- Schema `MonthlyExpenses` (`app/models/schemas.py`). -/
structure MonthlyExpenses where
  needs : ℚ
  wants : ℚ
  emis : ℚ
  savings : ℚ
  deriving DecidableEq

/-- Schema `TwinCurrentState` (`app/models/schemas.py`). -/
structure TwinCurrentState where
  savings : ℚ
  debt : ℚ
  assets : ℚ
  monthly_income : ℚ
  monthly_expenses : MonthlyExpenses
  deriving DecidableEq

/-- Schema `EMIInput` (`app/models/schemas.py`). -/
structure EMIInput where
  name : String
  monthly_amount : ℚ
  remaining_months : ℤ
  interest_rate : ℚ
  deriving DecidableEq

/-- Schema `GoalInput` (`app/models/schemas.py`). -/
structure GoalInput where
  name : String
  target : ℚ
  current : ℚ
  deadline : SimDate
  priority : ℤ
  deriving DecidableEq

/-- Schema `SimulationAssumptions` (`app/models/schemas.py`). -/
structure SimulationAssumptions where
  income_growth_rate : ℚ
  inflation_rate : ℚ
  savings_return_rate : ℚ
  deriving DecidableEq

/-- `DEFAULT_ASSUMPTIONS` from `digital_twin_service.py`. -/
def DEFAULT_ASSUMPTIONS : SimulationAssumptions :=
  { income_growth_rate := 0.08, inflation_rate := 0.06, savings_return_rate := 0.07 }

/-- Schema `ScenarioType` (`app/models/schemas.py`). -/
inductive ScenarioType where
  | baseline
  | increased_savings
  | aggressive_savings
  | job_loss
  | emi_prepayment
  deriving DecidableEq

/-- One entry of the `SCENARIO_MODIFIERS` table. -/
structure ScenarioModifiers where
  wants_multiplier : ℚ
  needs_multiplier : ℚ
  income_multiplier : ℚ
  description : String
  deriving DecidableEq

/-- `SCENARIO_MODIFIERS` table from `digital_twin_service.py`. -/
def SCENARIO_MODIFIERS : ScenarioType → ScenarioModifiers
  | .baseline =>
      { wants_multiplier := 1.0, needs_multiplier := 1.0, income_multiplier := 1.0,
        description := "No changes to current behavior" }
  | .increased_savings =>
      { wants_multiplier := 0.90, needs_multiplier := 1.0, income_multiplier := 1.0,
        description := "10% reduction in discretionary spending" }
  | .aggressive_savings =>
      { wants_multiplier := 0.75, needs_multiplier := 0.95, income_multiplier := 1.0,
        description := "25% reduction in wants, 5% in needs" }
  | .job_loss =>
      { wants_multiplier := 0.30, needs_multiplier := 0.70, income_multiplier := 0.0,
        description := "Zero income, survival mode spending" }
  | .emi_prepayment =>
      { wants_multiplier := 0.85, needs_multiplier := 1.0, income_multiplier := 1.0,
        description := "Redirect savings to loan prepayment" }

/-- Schema `TwinSimulateRequest` (`app/models/schemas.py`). -/
structure TwinSimulateRequest where
  current_state : TwinCurrentState
  emis : List EMIInput
  goals : List GoalInput
  projection_months : ℕ
  scenario : ScenarioType
  assumptions : Option SimulationAssumptions
  deriving DecidableEq

/-- Per-loan tracking record built by `FinancialTwinEngine._prepare_emis`. -/
structure EmiState where
  name : String
  monthly_amount : ℚ
  remaining_months : ℤ
  interest_rate : ℚ
  active : Bool
  deriving DecidableEq

/-- Per-goal tracking record built by `FinancialTwinEngine._prepare_goals`. -/
structure GoalState where
  name : String
  target : ℚ
  current : ℚ
  deadline : SimDate
  priority : ℤ
  achieved : Bool
  deriving DecidableEq

/-- The mutable state of one `FinancialTwinEngine` instance. -/
structure EngineState where
  current_savings : ℚ
  current_debt : ℚ
  current_assets : ℚ
  monthly_income : ℚ
  monthly_needs : ℚ
  monthly_wants : ℚ
  monthly_emis : ℚ
  monthly_savings_target : ℚ
  emis : List EmiState
  goals : List GoalState
  total_savings_added : ℚ
  total_debt_reduced : ℚ
  goals_achieved : List String
  deriving DecidableEq

/-- `_prepare_emis`, one element: every input obligation starts `active`. -/
def prepare_emi (e : EMIInput) : EmiState :=
  { name := e.name, monthly_amount := e.monthly_amount,
    remaining_months := e.remaining_months, interest_rate := e.interest_rate,
    active := true }

/-- `_prepare_goals`, one element: `achieved` is initialised to
`current >= target`. -/
def prepare_goal (g : GoalInput) : GoalState :=
  { name := g.name, target := g.target, current := g.current,
    deadline := g.deadline, priority := g.priority,
    achieved := if g.target ≤ g.current then true else false }

/-- `FinancialTwinEngine.__init__`. -/
def init_engine (r : TwinSimulateRequest) : EngineState :=
  { current_savings := r.current_state.savings,
    current_debt := r.current_state.debt,
    current_assets := r.current_state.assets,
    monthly_income := r.current_state.monthly_income,
    monthly_needs := r.current_state.monthly_expenses.needs,
    monthly_wants := r.current_state.monthly_expenses.wants,
    monthly_emis := r.current_state.monthly_expenses.emis,
    monthly_savings_target := r.current_state.monthly_expenses.savings,
    emis := r.emis.map prepare_emi,
    goals := r.goals.map prepare_goal,
    total_savings_added := 0,
    total_debt_reduced := 0,
    goals_achieved := [] }

/-- One obligation's share of the EMI pass in `_simulate_month`: an active
obligation with months left contributes its payment and is decremented,
deactivating when the count reaches 0. -/
def advance_emi (e : EmiState) : ℚ × EmiState :=
  if e.active = true ∧ 0 < e.remaining_months then
    (e.monthly_amount,
     { e with remaining_months := e.remaining_months - 1,
              active := if e.remaining_months - 1 ≤ 0 then false else e.active })
  else (0, e)

/-- The EMI pass of `_simulate_month` over the whole obligation list,
returning `active_emi_total` and the mutated list. -/
def advance_emis : List EmiState → ℚ × List EmiState
  | [] => (0, [])
  | e :: rest =>
      ((advance_emi e).1 + (advance_emis rest).1,
       (advance_emi e).2 :: (advance_emis rest).2)

/-- Stable insertion used to embed Python's stable `list.sort(key=priority)`:
an element is placed before the first element of strictly greater priority,
so equal priorities keep input order. -/
def insertByPriority (x : ℕ × GoalState) : List (ℕ × GoalState) → List (ℕ × GoalState)
  | [] => [x]
  | y :: ys => if y.2.priority < x.2.priority then y :: insertByPriority x ys
               else x :: y :: ys

/-- Stable sort by ascending `priority` (1 = funded first), ties broken by
input order, embedding `active_goals.sort(key=lambda x: x["priority"])`. -/
def sortByPriority : List (ℕ × GoalState) → List (ℕ × GoalState)
  | [] => []
  | x :: xs => insertByPriority x (sortByPriority xs)

/-- The allocation loop of `_update_goal_progress`: walk the sorted active
goals, funding each by `min(remaining, target - current)`; stop early when
no cash remains.  Also collects the names of goals achieved this month. -/
def allocate_goals (remaining : ℚ) : List (ℕ × GoalState) → List (ℕ × GoalState) × List String
  | [] => ([], [])
  | (i, g) :: rest =>
      if remaining ≤ 0 then ((i, g) :: rest, [])
      else
        let needed := g.target - g.current
        let contribution := min remaining needed
        let c := g.current + contribution
        let hit := if g.target ≤ c ∧ g.achieved = false then true else false
        let g' : GoalState := { g with current := c, achieved := hit || g.achieved }
        ((i, g') :: (allocate_goals (remaining - contribution) rest).1,
         (if hit = true then [g.name] else []) ++ (allocate_goals (remaining - contribution) rest).2)

/-- Write the allocator's in-place mutations back into the goal list: the
Python loop mutates the shared per-goal dicts, which positionally is
"replace goal `i` by its updated copy when the allocator touched it". -/
def apply_goal_updates (updates : List (ℕ × GoalState)) (goals : List GoalState) : List GoalState :=
  goals.enum.map fun p =>
    match updates.lookup p.1 with
    | some g' => g'
    | none => p.2

/-- One goal's row of the progress report built at the end of
`_update_goal_progress`. -/
structure GoalProgressEntry where
  name : String
  target : ℚ
  current : ℚ
  progress_percent : ℚ
  remaining : ℚ
  achieved : Bool
  on_track : Bool
  deriving DecidableEq

/-- Result of `_update_goal_progress`: the mutated goal list, the progress
report, and the names appended to `goals_achieved` this month. -/
structure GoalUpdateResult where
  goals : List GoalState
  progress : List GoalProgressEntry
  achieved_names : List String
  deriving DecidableEq

/-- `FinancialTwinEngine._update_goal_progress`. -/
def update_goal_progress (goals : List GoalState) (savings_flow : ℚ) (current_date : SimDate) :
    GoalUpdateResult :=
  let available_for_goals : ℚ := max 0 (savings_flow * 0.5)
  let active_goals := goals.enum.filter fun p => p.2.achieved = false
  let sorted_goals := sortByPriority active_goals
  let allocated := allocate_goals available_for_goals sorted_goals
  let new_goals := apply_goal_updates allocated.1 goals
  { goals := new_goals,
    progress := new_goals.map fun g =>
      let percent : ℚ := if 0 < g.target then g.current / g.target * 100 else 0
      { name := g.name, target := g.target,
        current := round_currency g.current,
        progress_percent := pyRound2 (min 100 percent),
        remaining := round_currency (max 0 (g.target - g.current)),
        achieved := g.achieved,
        on_track := g.achieved || dateLE current_date g.deadline },
    achieved_names := allocated.2 }

/-- Expense breakdown dict stored in each snapshot. -/
structure ExpenseBreakdown where
  needs : ℚ
  wants : ℚ
  emis : ℚ
  total : ℚ
  deriving DecidableEq

/-- Schema `MonthlySnapshot` (`app/models/schemas.py`). -/
structure MonthlySnapshot where
  month : ℕ
  date : String
  income : ℚ
  expenses : ExpenseBreakdown
  savings_flow : ℚ
  cumulative_savings : ℚ
  debt_remaining : ℚ
  networth : ℚ
  goal_progress : List GoalProgressEntry
  deriving DecidableEq

/-- `FinancialTwinEngine._simulate_month`: one month's transition, returning
the updated engine state and the emitted snapshot. -/
def simulate_month (assumptions : SimulationAssumptions) (modifiers : ScenarioModifiers)
    (st : EngineState) (month_num : ℕ) (start_date : SimDate) :
    EngineState × MonthlySnapshot :=
  let current_month := add_months start_date (month_num - 1)
  let month_str := get_year_month_string current_month
  let income := st.monthly_income * modifiers.income_multiplier
  let needs := st.monthly_needs * modifiers.needs_multiplier
  let wants := st.monthly_wants * modifiers.wants_multiplier
  let active_emi_total := (advance_emis st.emis).1
  let new_emis := (advance_emis st.emis).2
  let total_expenses := needs + wants + active_emi_total
  let savings_flow := income - total_expenses
  let monthly_return_rate := assumptions.savings_return_rate / 12
  let savings_return := st.current_savings * monthly_return_rate
  let new_savings := max 0 (st.current_savings + savings_flow + savings_return)
  let new_total_savings_added :=
    if 0 < savings_flow then st.total_savings_added + savings_flow else st.total_savings_added
  let principal_paid := active_emi_total * 0.4
  let new_debt := max 0 (st.current_debt - principal_paid)
  let new_total_debt_reduced := st.total_debt_reduced + principal_paid
  let networth := new_savings + st.current_assets - new_debt
  let gu := update_goal_progress st.goals savings_flow current_month
  ({ st with
      current_savings := new_savings,
      current_debt := new_debt,
      emis := new_emis,
      goals := gu.goals,
      total_savings_added := new_total_savings_added,
      total_debt_reduced := new_total_debt_reduced,
      goals_achieved := st.goals_achieved ++ gu.achieved_names },
   { month := month_num,
     date := month_str,
     income := round_currency income,
     expenses :=
       { needs := round_currency needs, wants := round_currency wants,
         emis := round_currency active_emi_total, total := round_currency total_expenses },
     savings_flow := round_currency savings_flow,
     cumulative_savings := round_currency new_savings,
     debt_remaining := round_currency new_debt,
     networth := round_currency networth,
     goal_progress := gu.progress })

/-- `FinancialTwinEngine._apply_annual_adjustments`. -/
def apply_annual_adjustments (assumptions : SimulationAssumptions) (st : EngineState) : EngineState :=
  { st with
      monthly_income := st.monthly_income * (1 + assumptions.income_growth_rate),
      monthly_needs := st.monthly_needs * (1 + assumptions.inflation_rate),
      monthly_wants := st.monthly_wants * (1 + assumptions.inflation_rate) }

/-- The assumptions actually used by `simulate`: the request's, or
`DEFAULT_ASSUMPTIONS` when absent. -/
def request_assumptions (r : TwinSimulateRequest) : SimulationAssumptions :=
  r.assumptions.getD DEFAULT_ASSUMPTIONS

/-- One iteration of the loop body of `FinancialTwinEngine.simulate`:
simulate month `month_num`, then apply annual adjustments when
`month_num % 12 == 0`. -/
def month_step (assumptions : SimulationAssumptions) (modifiers : ScenarioModifiers)
    (start_date : SimDate) (month_num : ℕ) (st : EngineState) : EngineState :=
  let st1 := (simulate_month assumptions modifiers st month_num start_date).1
  if month_num % 12 == 0 then apply_annual_adjustments assumptions st1 else st1

/-- Engine state after `k` iterations of the `simulate` loop. -/
def engine_state_after (r : TwinSimulateRequest) (start_date : SimDate) : ℕ → EngineState
  | 0 => init_engine r
  | k + 1 =>
      month_step (request_assumptions r) (SCENARIO_MODIFIERS r.scenario) start_date (k + 1)
        (engine_state_after r start_date k)

/-- The snapshot emitted for month `m` (1-indexed): `_simulate_month` applied
to the state after `m - 1` loop iterations. -/
def snapshot_at (r : TwinSimulateRequest) (start_date : SimDate) (m : ℕ) : MonthlySnapshot :=
  (simulate_month (request_assumptions r) (SCENARIO_MODIFIERS r.scenario)
    (engine_state_after r start_date (m - 1)) m start_date).2

/-- `FinancialTwinEngine.simulate`: the snapshot sequence for months
`1 .. projection_months`.  `start_date` stands for the `date.today()` read
inside `simulate`. -/
def simulate_twin (r : TwinSimulateRequest) (start_date : SimDate) : List MonthlySnapshot :=
  (List.range r.projection_months).map fun j => snapshot_at r start_date (j + 1)

/-- One element of the summary's `goals_at_risk` list. -/
structure GoalAtRisk where
  name : String
  target : ℚ
  projected : ℚ
  shortfall : ℚ
  deadline : String
  deriving DecidableEq

/-- Schema `ProjectionSummary` (`app/models/schemas.py`). -/
structure ProjectionSummary where
  initial_networth : ℚ
  final_networth : ℚ
  networth_change : ℚ
  total_savings_added : ℚ
  total_debt_reduced : ℚ
  final_savings : ℚ
  final_debt : ℚ
  goals_achieved : List String
  goals_at_risk : List GoalAtRisk
  deriving DecidableEq

/-- `FinancialTwinEngine.get_summary`. -/
def get_summary (initial_state : TwinCurrentState) (final : EngineState)
    (snapshots : List MonthlySnapshot) : ProjectionSummary :=
  let initial_networth := initial_state.savings + initial_state.assets - initial_state.debt
  let final_networth :=
    match snapshots.getLast? with | some s => s.networth | none => initial_networth
  let final_savings :=
    match snapshots.getLast? with | some s => s.cumulative_savings | none => initial_state.savings
  let final_debt :=
    match snapshots.getLast? with | some s => s.debt_remaining | none => initial_state.debt
  { initial_networth := round_currency initial_networth,
    final_networth := round_currency final_networth,
    networth_change := round_currency (final_networth - initial_networth),
    total_savings_added := round_currency final.total_savings_added,
    total_debt_reduced := round_currency final.total_debt_reduced,
    final_savings := round_currency final_savings,
    final_debt := round_currency final_debt,
    goals_achieved := final.goals_achieved,
    goals_at_risk := (final.goals.filter fun g => g.achieved = false).map fun g =>
      { name := g.name, target := g.target, projected := round_currency g.current,
        shortfall := round_currency (g.target - g.current), deadline := isoFormat g.deadline } }

/-- The projection summary produced for a request (final engine state plus
the full snapshot sequence). -/
def summary_twin (r : TwinSimulateRequest) (start_date : SimDate) : ProjectionSummary :=
  get_summary r.current_state (engine_state_after r start_date r.projection_months)
    (simulate_twin r start_date)

/-- The month's net savings flow (`savings_flow` in `_simulate_month`):
income minus needs, wants and obligation payments, all after scenario
multipliers. -/
def month_savings_flow (modifiers : ScenarioModifiers) (st : EngineState) : ℚ :=
  st.monthly_income * modifiers.income_multiplier -
    (st.monthly_needs * modifiers.needs_multiplier +
      st.monthly_wants * modifiers.wants_multiplier + (advance_emis st.emis).1)

/-- Closed form for an obligation's tracking record after `k` simulated
months: an input with a positive term counts down to 0 and deactivates;
a non-positive term (impossible under schema validation) is never touched. -/
def emi_after (e : EMIInput) (k : ℕ) : EmiState :=
  { name := e.name, monthly_amount := e.monthly_amount, interest_rate := e.interest_rate,
    remaining_months :=
      if e.remaining_months ≤ 0 then e.remaining_months else max (e.remaining_months - k) 0,
    active := if e.remaining_months ≤ 0 then true
              else if (k : ℤ) < e.remaining_months then true else false }

/-- A snapshot with the clock-derived data removed: everything except the
`date` string and the per-goal `on_track` flags. -/
structure SnapshotCore where
  month : ℕ
  income : ℚ
  expenses : ExpenseBreakdown
  savings_flow : ℚ
  cumulative_savings : ℚ
  debt_remaining : ℚ
  networth : ℚ
  goal_names : List String
  goal_targets : List ℚ
  goal_currents : List ℚ
  goal_percents : List ℚ
  goal_remainings : List ℚ
  goal_achieveds : List Bool
  deriving DecidableEq

/-- Forget the start-date-derived fields of a snapshot. -/
def stripClock (s : MonthlySnapshot) : SnapshotCore :=
  { month := s.month, income := s.income, expenses := s.expenses,
    savings_flow := s.savings_flow, cumulative_savings := s.cumulative_savings,
    debt_remaining := s.debt_remaining, networth := s.networth,
    goal_names := s.goal_progress.map (fun e => e.name),
    goal_targets := s.goal_progress.map (fun e => e.target),
    goal_currents := s.goal_progress.map (fun e => e.current),
    goal_percents := s.goal_progress.map (fun e => e.progress_percent),
    goal_remainings := s.goal_progress.map (fun e => e.remaining),
    goal_achieveds := s.goal_progress.map (fun e => e.achieved) }

/-- Goal lists the engine ever holds satisfy this: an unachieved goal is
strictly short of its target (established by `_prepare_goals`, maintained by
the allocator). -/
def GoalsWF (gs : List GoalState) : Prop :=
  ∀ g ∈ gs, g.achieved = false → g.current < g.target

/-- How one month's allocation can change a single goal: identity fields are
kept, `current` never decreases, `achieved` never reverts, and an unachieved
result is still short of target. -/
def GoalStepWF (g g' : GoalState) : Prop :=
  g'.name = g.name ∧ g'.target = g.target ∧ g'.deadline = g.deadline ∧
    g'.priority = g.priority ∧ g.current ≤ g'.current ∧
    (g.achieved = true → g'.achieved = true) ∧
    (g'.achieved = false → g'.current < g'.target)

/-- The allocation loop exactly as the specification words it: iterate the
sorted goals, funding each by `min(remaining cash, goal shortfall)`, a goal
becoming achieved exactly when `current ≥ target`; no early exit. -/
def spec_allocate (remaining : ℚ) : List (ℕ × GoalState) → List (ℕ × GoalState)
  | [] => []
  | (i, g) :: rest =>
      (i, { g with
              current := g.current + min remaining (g.target - g.current),
              achieved :=
                if g.target ≤ g.current + min remaining (g.target - g.current) then true
                else g.achieved }) ::
        spec_allocate (remaining - min remaining (g.target - g.current)) rest

/-- The goal-funding pass as the specification describes it: available cash
is `max(0, savingsFlow) × 0.5`, goals not yet achieved are stable-sorted
ascending by priority, then funded in order by `min(remaining, shortfall)`. -/
def spec_goal_allocation (gs : List GoalState) (sf : ℚ) : List GoalState :=
  apply_goal_updates
    (spec_allocate (max 0 sf * 0.5)
      (sortByPriority (gs.enum.filter fun p => p.2.achieved = false))) gs

/-- A one-month request whose expenses exceed income, so the savings flow is
negative and the savings floor is exercised. -/
def c5_request : TwinSimulateRequest :=
  { current_state :=
      { savings := 0, debt := 0, assets := 0, monthly_income := 100,
        monthly_expenses := { needs := 0, wants := 150, emis := 0, savings := 0 } },
    emis := [], goals := [],
    projection_months := 1,
    scenario := ScenarioType.baseline,
    assumptions := some { income_growth_rate := 0, inflation_rate := 0, savings_return_rate := 0 } }

/-- A two-month request with debt and a one-month obligation. -/
def c6_request : TwinSimulateRequest :=
  { current_state :=
      { savings := 0, debt := 1000, assets := 0, monthly_income := 100,
        monthly_expenses := { needs := 0, wants := 0, emis := 1000, savings := 0 } },
    emis := [{ name := "loan", monthly_amount := 1000, remaining_months := 1,
               interest_rate := 10 }],
    goals := [],
    projection_months := 2,
    scenario := ScenarioType.baseline,
    assumptions := some { income_growth_rate := 0, inflation_rate := 0, savings_return_rate := 0 } }

/-- A one-month baseline request used to witness the adjustment schedule. -/
def c8_request : TwinSimulateRequest :=
  { current_state :=
      { savings := 0, debt := 0, assets := 0, monthly_income := 123,
        monthly_expenses := { needs := 10, wants := 20, emis := 0, savings := 0 } },
    emis := [], goals := [],
    projection_months := 1,
    scenario := ScenarioType.baseline,
    assumptions := some { income_growth_rate := 0.08, inflation_rate := 0.06,
                          savings_return_rate := 0.07 } }

/-- The specification's worked example: a single EMI of 15000 with six
months remaining, simulated for twelve months. -/
def c3_request : TwinSimulateRequest :=
  { current_state :=
      { savings := 0, debt := 50000, assets := 0, monthly_income := 100000,
        monthly_expenses := { needs := 35000, wants := 20000, emis := 15000, savings := 0 } },
    emis := [{ name := "loan", monthly_amount := 15000, remaining_months := 6,
               interest_rate := 10 }],
    goals := [],
    projection_months := 12,
    scenario := ScenarioType.baseline,
    assumptions := some { income_growth_rate := 0, inflation_rate := 0, savings_return_rate := 0 } }

/-- A small request with non-negative expense baselines for the scenario
comparison. -/
def c9_request : TwinSimulateRequest :=
  { current_state :=
      { savings := 0, debt := 0, assets := 0, monthly_income := 100,
        monthly_expenses := { needs := 30, wants := 20, emis := 0, savings := 0 } },
    emis := [], goals := [],
    projection_months := 1,
    scenario := ScenarioType.baseline,
    assumptions := some { income_growth_rate := 0, inflation_rate := 0, savings_return_rate := 0 } }

/-- Zero starting debt but an active one-month obligation of 1000. -/
def c10_request : TwinSimulateRequest :=
  { current_state :=
      { savings := 0, debt := 0, assets := 0, monthly_income := 100,
        monthly_expenses := { needs := 0, wants := 0, emis := 1000, savings := 0 } },
    emis := [{ name := "loan", monthly_amount := 1000, remaining_months := 1,
               interest_rate := 10 }],
    goals := [],
    projection_months := 1,
    scenario := ScenarioType.baseline,
    assumptions := some { income_growth_rate := 0, inflation_rate := 0, savings_return_rate := 0 } }

/-- A one-month request with a single goal whose deadline falls between two
candidate "today" dates. -/
def c1_request : TwinSimulateRequest :=
  { current_state :=
      { savings := 0, debt := 0, assets := 0, monthly_income := 100,
        monthly_expenses := { needs := 0, wants := 0, emis := 0, savings := 0 } },
    emis := [],
    goals := [{ name := "g", target := 1000, current := 0,
                deadline := ⟨2024, 6, 1⟩, priority := 1 }],
    projection_months := 1,
    scenario := ScenarioType.baseline,
    assumptions := some { income_growth_rate := 0, inflation_rate := 0, savings_return_rate := 0 } }

/-- Sub-cent savings and debt make the rounded snapshot fields disagree
with the rounded net worth. -/
def c4_request : TwinSimulateRequest :=
  { current_state :=
      { savings := 0.006, debt := 0.002, assets := 0, monthly_income := 100,
        monthly_expenses := { needs := 0, wants := 100, emis := 0, savings := 0 } },
    emis := [], goals := [],
    projection_months := 1,
    scenario := ScenarioType.baseline,
    assumptions := some { income_growth_rate := 0, inflation_rate := 0, savings_return_rate := 0 } }

/-- A two-month request with one goal, partially funded each month. -/
def c7_request : TwinSimulateRequest :=
  { current_state :=
      { savings := 0, debt := 0, assets := 0, monthly_income := 100,
        monthly_expenses := { needs := 0, wants := 0, emis := 0, savings := 0 } },
    emis := [],
    goals := [{ name := "g", target := 1000, current := 0,
                deadline := ⟨2030, 1, 1⟩, priority := 1 }],
    projection_months := 2,
    scenario := ScenarioType.baseline,
    assumptions := some { income_growth_rate := 0, inflation_rate := 0, savings_return_rate := 0 } }

/-! ### Rounding lemmas -/

theorem roundHalfUpInt_mono {x y : ℚ} (h : x ≤ y) : roundHalfUpInt x ≤ roundHalfUpInt y := by
  unfold roundHalfUpInt
  split_ifs with hx hy hy
  · exact Int.floor_mono (by linarith)
  · linarith
  · have h1 : (0 : ℤ) ≤ ⌊-x + 1/2⌋ := by
      apply Int.le_floor.mpr
      push_cast
      linarith
    have h2 : (0 : ℤ) ≤ ⌊y + 1/2⌋ := by
      apply Int.le_floor.mpr
      push_cast
      linarith
    omega
  · have := Int.floor_mono (show -y + 1/2 ≤ -x + 1/2 by linarith)
    omega

theorem round_currency_mono {x y : ℚ} (h : x ≤ y) : round_currency x ≤ round_currency y := by
  unfold round_currency
  have := roundHalfUpInt_mono (show x * 100 ≤ y * 100 by linarith)
  have hc : ((roundHalfUpInt (x * 100) : ℤ) : ℚ) ≤ ((roundHalfUpInt (y * 100) : ℤ) : ℚ) := by
    exact_mod_cast this
  linarith

theorem roundHalfUpInt_zero : roundHalfUpInt 0 = 0 := by
  unfold roundHalfUpInt
  norm_num

theorem round_currency_nonneg {x : ℚ} (h : 0 ≤ x) : 0 ≤ round_currency x := by
  have h0 : round_currency 0 = 0 := by
    unfold round_currency
    rw [show (0 : ℚ) * 100 = 0 by ring, roundHalfUpInt_zero]
    norm_num
  calc (0 : ℚ) = round_currency 0 := h0.symm
    _ ≤ round_currency x := round_currency_mono h

theorem roundHalfUpInt_dist {x : ℚ} : |(roundHalfUpInt x : ℚ) - x| ≤ 1/2 := by
  unfold roundHalfUpInt
  split_ifs with hx
  · have h1 : (⌊x + 1/2⌋ : ℚ) ≤ x + 1/2 := Int.floor_le _
    have h2 : x + 1/2 < (⌊x + 1/2⌋ : ℚ) + 1 := Int.lt_floor_add_one _
    rw [abs_le]
    constructor <;> linarith
  · have h1 : (⌊-x + 1/2⌋ : ℚ) ≤ -x + 1/2 := Int.floor_le _
    have h2 : -x + 1/2 < (⌊-x + 1/2⌋ : ℚ) + 1 := Int.lt_floor_add_one _
    rw [abs_le]
    constructor <;> push_cast <;> linarith

theorem round_currency_dist (x : ℚ) : |round_currency x - x| ≤ 1/200 := by
  unfold round_currency
  have h := roundHalfUpInt_dist (x := x * 100)
  have : |(roundHalfUpInt (x * 100) : ℚ) / 100 - x| = |(roundHalfUpInt (x * 100) : ℚ) - x * 100| / 100 := by
    rw [← abs_of_pos (show (0:ℚ) < 100 by norm_num), ← abs_div]
    congr 1
    field_simp
    ring
  rw [this]
  linarith

/-! ### Projection lemmas for one month's transition -/
theorem sm_fst_current_savings (a : SimulationAssumptions) (mods : ScenarioModifiers)
    (st : EngineState) (mn : ℕ) (sd : SimDate) :
    ((simulate_month a mods st mn sd).1).current_savings =
      max 0 (st.current_savings + month_savings_flow mods st +
        st.current_savings * (a.savings_return_rate / 12)) := rfl

theorem sm_fst_current_debt (a : SimulationAssumptions) (mods : ScenarioModifiers)
    (st : EngineState) (mn : ℕ) (sd : SimDate) :
    ((simulate_month a mods st mn sd).1).current_debt =
      max 0 (st.current_debt - (advance_emis st.emis).1 * 0.4) := rfl

theorem sm_fst_current_assets (a : SimulationAssumptions) (mods : ScenarioModifiers)
    (st : EngineState) (mn : ℕ) (sd : SimDate) :
    ((simulate_month a mods st mn sd).1).current_assets = st.current_assets := rfl

theorem sm_fst_monthly_income (a : SimulationAssumptions) (mods : ScenarioModifiers)
    (st : EngineState) (mn : ℕ) (sd : SimDate) :
    ((simulate_month a mods st mn sd).1).monthly_income = st.monthly_income := rfl

theorem sm_fst_monthly_needs (a : SimulationAssumptions) (mods : ScenarioModifiers)
    (st : EngineState) (mn : ℕ) (sd : SimDate) :
    ((simulate_month a mods st mn sd).1).monthly_needs = st.monthly_needs := rfl

theorem sm_fst_monthly_wants (a : SimulationAssumptions) (mods : ScenarioModifiers)
    (st : EngineState) (mn : ℕ) (sd : SimDate) :
    ((simulate_month a mods st mn sd).1).monthly_wants = st.monthly_wants := rfl

theorem sm_fst_emis (a : SimulationAssumptions) (mods : ScenarioModifiers)
    (st : EngineState) (mn : ℕ) (sd : SimDate) :
    ((simulate_month a mods st mn sd).1).emis = (advance_emis st.emis).2 := rfl

theorem sm_fst_goals (a : SimulationAssumptions) (mods : ScenarioModifiers)
    (st : EngineState) (mn : ℕ) (sd : SimDate) :
    ((simulate_month a mods st mn sd).1).goals =
      (update_goal_progress st.goals (month_savings_flow mods st)
        (add_months sd (mn - 1))).goals := rfl

theorem sm_fst_total_savings_added (a : SimulationAssumptions) (mods : ScenarioModifiers)
    (st : EngineState) (mn : ℕ) (sd : SimDate) :
    ((simulate_month a mods st mn sd).1).total_savings_added =
      (if 0 < month_savings_flow mods st
        then st.total_savings_added + month_savings_flow mods st
        else st.total_savings_added) := rfl

theorem sm_fst_total_debt_reduced (a : SimulationAssumptions) (mods : ScenarioModifiers)
    (st : EngineState) (mn : ℕ) (sd : SimDate) :
    ((simulate_month a mods st mn sd).1).total_debt_reduced =
      st.total_debt_reduced + (advance_emis st.emis).1 * 0.4 := rfl

theorem sm_snd_month (a : SimulationAssumptions) (mods : ScenarioModifiers)
    (st : EngineState) (mn : ℕ) (sd : SimDate) :
    ((simulate_month a mods st mn sd).2).month = mn := rfl

theorem sm_snd_income (a : SimulationAssumptions) (mods : ScenarioModifiers)
    (st : EngineState) (mn : ℕ) (sd : SimDate) :
    ((simulate_month a mods st mn sd).2).income =
      round_currency (st.monthly_income * mods.income_multiplier) := rfl

theorem sm_snd_expenses_needs (a : SimulationAssumptions) (mods : ScenarioModifiers)
    (st : EngineState) (mn : ℕ) (sd : SimDate) :
    ((simulate_month a mods st mn sd).2).expenses.needs =
      round_currency (st.monthly_needs * mods.needs_multiplier) := rfl

theorem sm_snd_expenses_wants (a : SimulationAssumptions) (mods : ScenarioModifiers)
    (st : EngineState) (mn : ℕ) (sd : SimDate) :
    ((simulate_month a mods st mn sd).2).expenses.wants =
      round_currency (st.monthly_wants * mods.wants_multiplier) := rfl

theorem sm_snd_expenses_emis (a : SimulationAssumptions) (mods : ScenarioModifiers)
    (st : EngineState) (mn : ℕ) (sd : SimDate) :
    ((simulate_month a mods st mn sd).2).expenses.emis =
      round_currency (advance_emis st.emis).1 := rfl

theorem sm_snd_savings_flow (a : SimulationAssumptions) (mods : ScenarioModifiers)
    (st : EngineState) (mn : ℕ) (sd : SimDate) :
    ((simulate_month a mods st mn sd).2).savings_flow =
      round_currency (month_savings_flow mods st) := rfl

theorem sm_snd_cumulative_savings (a : SimulationAssumptions) (mods : ScenarioModifiers)
    (st : EngineState) (mn : ℕ) (sd : SimDate) :
    ((simulate_month a mods st mn sd).2).cumulative_savings =
      round_currency ((simulate_month a mods st mn sd).1).current_savings := rfl

theorem sm_snd_debt_remaining (a : SimulationAssumptions) (mods : ScenarioModifiers)
    (st : EngineState) (mn : ℕ) (sd : SimDate) :
    ((simulate_month a mods st mn sd).2).debt_remaining =
      round_currency ((simulate_month a mods st mn sd).1).current_debt := rfl

theorem sm_snd_networth (a : SimulationAssumptions) (mods : ScenarioModifiers)
    (st : EngineState) (mn : ℕ) (sd : SimDate) :
    ((simulate_month a mods st mn sd).2).networth =
      round_currency (((simulate_month a mods st mn sd).1).current_savings +
        st.current_assets - ((simulate_month a mods st mn sd).1).current_debt) := rfl

theorem sm_snd_goal_progress (a : SimulationAssumptions) (mods : ScenarioModifiers)
    (st : EngineState) (mn : ℕ) (sd : SimDate) :
    ((simulate_month a mods st mn sd).2).goal_progress =
      (update_goal_progress st.goals (month_savings_flow mods st)
        (add_months sd (mn - 1))).progress := rfl

/-! ### Obligation tracking across months -/
theorem emi_after_zero (e : EMIInput) : emi_after e 0 = prepare_emi e := by
  unfold emi_after prepare_emi
  split_ifs with h1 h2 <;> simp_all <;> omega

theorem advance_emi_emi_after (e : EMIInput) (k : ℕ) :
    advance_emi (emi_after e k) =
      ((if ((k : ℤ) + 1 ≤ e.remaining_months) then e.monthly_amount else 0),
        emi_after e (k + 1)) := by
  unfold advance_emi emi_after
  split_ifs <;>
    simp_all only [Prod.mk.injEq, EmiState.mk.injEq, true_and, and_true, Bool.true_eq_false,
      Bool.false_eq_true, not_and, not_lt, not_le, and_self, and_imp] <;>
    omega

theorem advance_emis_map (es : List EMIInput) (k : ℕ) :
    advance_emis (es.map fun e => emi_after e k) =
      ((es.map fun e => if ((k : ℤ) + 1 ≤ e.remaining_months) then e.monthly_amount else 0).sum,
        es.map fun e => emi_after e (k + 1)) := by
  induction es with
  | nil => simp [advance_emis]
  | cons e rest ih =>
      simp only [List.map_cons, advance_emis, ih, advance_emi_emi_after, List.sum_cons]

/-! ### Characterisation of the running engine state -/

theorem esa_zero (r : TwinSimulateRequest) (sd : SimDate) :
    engine_state_after r sd 0 = init_engine r := rfl

theorem esa_succ (r : TwinSimulateRequest) (sd : SimDate) (k : ℕ) :
    engine_state_after r sd (k + 1) =
      month_step (request_assumptions r) (SCENARIO_MODIFIERS r.scenario) sd (k + 1)
        (engine_state_after r sd k) := rfl

theorem aaa_emis (a : SimulationAssumptions) (st : EngineState) :
    (apply_annual_adjustments a st).emis = st.emis := rfl

theorem aaa_goals (a : SimulationAssumptions) (st : EngineState) :
    (apply_annual_adjustments a st).goals = st.goals := rfl

theorem aaa_savings (a : SimulationAssumptions) (st : EngineState) :
    (apply_annual_adjustments a st).current_savings = st.current_savings := rfl

theorem aaa_debt (a : SimulationAssumptions) (st : EngineState) :
    (apply_annual_adjustments a st).current_debt = st.current_debt := rfl

theorem aaa_assets (a : SimulationAssumptions) (st : EngineState) :
    (apply_annual_adjustments a st).current_assets = st.current_assets := rfl

theorem aaa_tsa (a : SimulationAssumptions) (st : EngineState) :
    (apply_annual_adjustments a st).total_savings_added = st.total_savings_added := rfl

theorem aaa_tdr (a : SimulationAssumptions) (st : EngineState) :
    (apply_annual_adjustments a st).total_debt_reduced = st.total_debt_reduced := rfl

theorem month_step_emis (a : SimulationAssumptions) (mods : ScenarioModifiers)
    (sd : SimDate) (mn : ℕ) (st : EngineState) :
    (month_step a mods sd mn st).emis = (advance_emis st.emis).2 := by
  unfold month_step
  split_ifs <;> simp [aaa_emis, sm_fst_emis]

theorem month_step_goals (a : SimulationAssumptions) (mods : ScenarioModifiers)
    (sd : SimDate) (mn : ℕ) (st : EngineState) :
    (month_step a mods sd mn st).goals =
      (update_goal_progress st.goals (month_savings_flow mods st)
        (add_months sd (mn - 1))).goals := by
  unfold month_step
  split_ifs <;> simp [aaa_goals, sm_fst_goals]

theorem month_step_savings (a : SimulationAssumptions) (mods : ScenarioModifiers)
    (sd : SimDate) (mn : ℕ) (st : EngineState) :
    (month_step a mods sd mn st).current_savings =
      max 0 (st.current_savings + month_savings_flow mods st +
        st.current_savings * (a.savings_return_rate / 12)) := by
  unfold month_step
  split_ifs <;> simp [aaa_savings, sm_fst_current_savings]

theorem month_step_debt (a : SimulationAssumptions) (mods : ScenarioModifiers)
    (sd : SimDate) (mn : ℕ) (st : EngineState) :
    (month_step a mods sd mn st).current_debt =
      max 0 (st.current_debt - (advance_emis st.emis).1 * 0.4) := by
  unfold month_step
  split_ifs <;> simp [aaa_debt, sm_fst_current_debt]

theorem month_step_assets (a : SimulationAssumptions) (mods : ScenarioModifiers)
    (sd : SimDate) (mn : ℕ) (st : EngineState) :
    (month_step a mods sd mn st).current_assets = st.current_assets := by
  unfold month_step
  split_ifs <;> simp [aaa_assets, sm_fst_current_assets]

theorem month_step_tsa (a : SimulationAssumptions) (mods : ScenarioModifiers)
    (sd : SimDate) (mn : ℕ) (st : EngineState) :
    (month_step a mods sd mn st).total_savings_added =
      (if 0 < month_savings_flow mods st
        then st.total_savings_added + month_savings_flow mods st
        else st.total_savings_added) := by
  simp only [month_step, apply_ite EngineState.total_savings_added, aaa_tsa, ite_self,
    sm_fst_total_savings_added]

theorem month_step_tdr (a : SimulationAssumptions) (mods : ScenarioModifiers)
    (sd : SimDate) (mn : ℕ) (st : EngineState) :
    (month_step a mods sd mn st).total_debt_reduced =
      st.total_debt_reduced + (advance_emis st.emis).1 * 0.4 := by
  unfold month_step
  split_ifs <;> simp [aaa_tdr, sm_fst_total_debt_reduced]

theorem esa_emis (r : TwinSimulateRequest) (sd : SimDate) (k : ℕ) :
    (engine_state_after r sd k).emis = r.emis.map fun e => emi_after e k := by
  induction k with
  | zero =>
      rw [esa_zero]
      unfold init_engine
      simp only [List.map_inj_left]
      intro e _
      exact (emi_after_zero e).symm
  | succ k ih =>
      rw [esa_succ, month_step_emis, ih, advance_emis_map]

theorem esa_assets (r : TwinSimulateRequest) (sd : SimDate) (k : ℕ) :
    (engine_state_after r sd k).current_assets = r.current_state.assets := by
  induction k with
  | zero => rfl
  | succ k ih => rw [esa_succ, month_step_assets, ih]

/-! ### The snapshot sequence, indexed -/

theorem simulate_twin_get (r : TwinSimulateRequest) (sd : SimDate) {j : ℕ}
    (hj : j < r.projection_months) :
    (simulate_twin r sd).get? j = some (snapshot_at r sd (j + 1)) := by
  unfold simulate_twin
  rw [List.get?_map, List.get?_range hj]
  rfl

theorem simulate_twin_length (r : TwinSimulateRequest) (sd : SimDate) :
    (simulate_twin r sd).length = r.projection_months := by
  unfold simulate_twin
  rw [List.length_map, List.length_range]

theorem mem_simulate_twin (r : TwinSimulateRequest) (sd : SimDate) {s : MonthlySnapshot}
    (hs : s ∈ simulate_twin r sd) :
    ∃ j < r.projection_months, s = snapshot_at r sd (j + 1) := by
  unfold simulate_twin at hs
  obtain ⟨j, hj, rfl⟩ := List.mem_map.mp hs
  exact ⟨j, List.mem_range.mp hj, rfl⟩

theorem snapshot_at_savings (r : TwinSimulateRequest) (sd : SimDate) (k : ℕ) :
    (snapshot_at r sd (k + 1)).cumulative_savings =
      round_currency ((engine_state_after r sd (k + 1)).current_savings) := by
  unfold snapshot_at
  rw [sm_snd_cumulative_savings, sm_fst_current_savings, esa_succ, month_step_savings]
  norm_num

theorem snapshot_at_debt (r : TwinSimulateRequest) (sd : SimDate) (k : ℕ) :
    (snapshot_at r sd (k + 1)).debt_remaining =
      round_currency ((engine_state_after r sd (k + 1)).current_debt) := by
  unfold snapshot_at
  rw [sm_snd_debt_remaining, sm_fst_current_debt, esa_succ, month_step_debt]
  norm_num

theorem snapshot_at_networth (r : TwinSimulateRequest) (sd : SimDate) (k : ℕ) :
    (snapshot_at r sd (k + 1)).networth =
      round_currency ((engine_state_after r sd (k + 1)).current_savings +
        r.current_state.assets - (engine_state_after r sd (k + 1)).current_debt) := by
  unfold snapshot_at
  rw [sm_snd_networth, sm_fst_current_savings, sm_fst_current_debt]
  simp only [Nat.add_sub_cancel]
  rw [esa_succ, month_step_savings, month_step_debt, esa_assets]

theorem snapshot_at_goal_progress (r : TwinSimulateRequest) (sd : SimDate) (k : ℕ) :
    (snapshot_at r sd (k + 1)).goal_progress =
      (engine_state_after r sd (k + 1)).goals.map fun g =>
        { name := g.name, target := g.target,
          current := round_currency g.current,
          progress_percent :=
            pyRound2 (min 100 (if 0 < g.target then g.current / g.target * 100 else 0)),
          remaining := round_currency (max 0 (g.target - g.current)),
          achieved := g.achieved,
          on_track := g.achieved || dateLE (add_months sd k) g.deadline } := by
  unfold snapshot_at
  rw [sm_snd_goal_progress, esa_succ, month_step_goals]
  rfl

/-! ### Dependence on the start date (only the date string and `on_track`) -/

theorem ugp_goals_date_indep (gs : List GoalState) (sf : ℚ) (d d' : SimDate) :
    (update_goal_progress gs sf d).goals = (update_goal_progress gs sf d').goals := rfl

theorem ugp_names_date_indep (gs : List GoalState) (sf : ℚ) (d d' : SimDate) :
    (update_goal_progress gs sf d).achieved_names =
      (update_goal_progress gs sf d').achieved_names := rfl

theorem sm_fst_date_indep (a : SimulationAssumptions) (mods : ScenarioModifiers)
    (st : EngineState) (mn : ℕ) (sd sd' : SimDate) :
    (simulate_month a mods st mn sd).1 = (simulate_month a mods st mn sd').1 := rfl

theorem esa_date_indep (r : TwinSimulateRequest) (sd sd' : SimDate) (k : ℕ) :
    engine_state_after r sd k = engine_state_after r sd' k := by
  induction k with
  | zero => rfl
  | succ k ih =>
      rw [esa_succ, esa_succ, ih]
      unfold month_step
      rw [sm_fst_date_indep (request_assumptions r) (SCENARIO_MODIFIERS r.scenario) _ _ sd sd']

theorem ugp_progress_map (gs : List GoalState) (sf : ℚ) (d : SimDate) :
    (update_goal_progress gs sf d).progress =
      (update_goal_progress gs sf d).goals.map fun g =>
        { name := g.name, target := g.target,
          current := round_currency g.current,
          progress_percent :=
            pyRound2 (min 100 (if 0 < g.target then g.current / g.target * 100 else 0)),
          remaining := round_currency (max 0 (g.target - g.current)),
          achieved := g.achieved,
          on_track := g.achieved || dateLE d g.deadline } := rfl

theorem stripClock_sm_date_indep (a : SimulationAssumptions) (mods : ScenarioModifiers)
    (st : EngineState) (mn : ℕ) (sd sd' : SimDate) :
    stripClock (simulate_month a mods st mn sd).2 =
      stripClock (simulate_month a mods st mn sd').2 := by
  unfold stripClock
  simp only [sm_snd_goal_progress, ugp_progress_map, List.map_map]
  rw [ugp_goals_date_indep st.goals (month_savings_flow mods st)
        (add_months sd (mn - 1)) (add_months sd' (mn - 1))]
  rfl

/-! ### Annual adjustment closed forms -/

theorem aaa_income (a : SimulationAssumptions) (st : EngineState) :
    (apply_annual_adjustments a st).monthly_income =
      st.monthly_income * (1 + a.income_growth_rate) := rfl

theorem aaa_needs (a : SimulationAssumptions) (st : EngineState) :
    (apply_annual_adjustments a st).monthly_needs =
      st.monthly_needs * (1 + a.inflation_rate) := rfl

theorem aaa_wants (a : SimulationAssumptions) (st : EngineState) :
    (apply_annual_adjustments a st).monthly_wants =
      st.monthly_wants * (1 + a.inflation_rate) := rfl

theorem month_step_income (a : SimulationAssumptions) (mods : ScenarioModifiers)
    (sd : SimDate) (mn : ℕ) (st : EngineState) :
    (month_step a mods sd mn st).monthly_income =
      (if mn % 12 == 0 then st.monthly_income * (1 + a.income_growth_rate)
       else st.monthly_income) := by
  simp only [month_step, apply_ite EngineState.monthly_income, aaa_income, sm_fst_monthly_income]

theorem month_step_needs (a : SimulationAssumptions) (mods : ScenarioModifiers)
    (sd : SimDate) (mn : ℕ) (st : EngineState) :
    (month_step a mods sd mn st).monthly_needs =
      (if mn % 12 == 0 then st.monthly_needs * (1 + a.inflation_rate)
       else st.monthly_needs) := by
  simp only [month_step, apply_ite EngineState.monthly_needs, aaa_needs, sm_fst_monthly_needs]

theorem month_step_wants (a : SimulationAssumptions) (mods : ScenarioModifiers)
    (sd : SimDate) (mn : ℕ) (st : EngineState) :
    (month_step a mods sd mn st).monthly_wants =
      (if mn % 12 == 0 then st.monthly_wants * (1 + a.inflation_rate)
       else st.monthly_wants) := by
  simp only [month_step, apply_ite EngineState.monthly_wants, aaa_wants, sm_fst_monthly_wants]

theorem esa_income (r : TwinSimulateRequest) (sd : SimDate) (k : ℕ) :
    (engine_state_after r sd k).monthly_income =
      r.current_state.monthly_income *
        (1 + (request_assumptions r).income_growth_rate) ^ (k / 12) := by
  induction k with
  | zero => simp [esa_zero, init_engine]
  | succ k ih =>
      rw [esa_succ, month_step_income, ih]
      by_cases h : (k + 1) % 12 = 0
      · rw [if_pos (by simpa using h), show (k + 1) / 12 = k / 12 + 1 by omega, pow_succ]
        ring
      · rw [if_neg (by simpa using h), show (k + 1) / 12 = k / 12 by omega]

theorem esa_needs (r : TwinSimulateRequest) (sd : SimDate) (k : ℕ) :
    (engine_state_after r sd k).monthly_needs =
      r.current_state.monthly_expenses.needs *
        (1 + (request_assumptions r).inflation_rate) ^ (k / 12) := by
  induction k with
  | zero => simp [esa_zero, init_engine]
  | succ k ih =>
      rw [esa_succ, month_step_needs, ih]
      by_cases h : (k + 1) % 12 = 0
      · rw [if_pos (by simpa using h), show (k + 1) / 12 = k / 12 + 1 by omega, pow_succ]
        ring
      · rw [if_neg (by simpa using h), show (k + 1) / 12 = k / 12 by omega]

theorem esa_wants (r : TwinSimulateRequest) (sd : SimDate) (k : ℕ) :
    (engine_state_after r sd k).monthly_wants =
      r.current_state.monthly_expenses.wants *
        (1 + (request_assumptions r).inflation_rate) ^ (k / 12) := by
  induction k with
  | zero => simp [esa_zero, init_engine]
  | succ k ih =>
      rw [esa_succ, month_step_wants, ih]
      by_cases h : (k + 1) % 12 = 0
      · rw [if_pos (by simpa using h), show (k + 1) / 12 = k / 12 + 1 by omega, pow_succ]
        ring
      · rw [if_neg (by simpa using h), show (k + 1) / 12 = k / 12 by omega]

/-! ### Debt and savings evolution -/

theorem esa_debt_succ (r : TwinSimulateRequest) (sd : SimDate) (k : ℕ) :
    (engine_state_after r sd (k + 1)).current_debt =
      max 0 ((engine_state_after r sd k).current_debt -
        (advance_emis (engine_state_after r sd k).emis).1 * 0.4) := by
  rw [esa_succ, month_step_debt]

theorem esa_savings_succ (r : TwinSimulateRequest) (sd : SimDate) (k : ℕ) :
    (engine_state_after r sd (k + 1)).current_savings =
      max 0 ((engine_state_after r sd k).current_savings +
        month_savings_flow (SCENARIO_MODIFIERS r.scenario) (engine_state_after r sd k) +
        (engine_state_after r sd k).current_savings *
          ((request_assumptions r).savings_return_rate / 12)) := by
  rw [esa_succ, month_step_savings]

theorem esa_savings_nonneg (r : TwinSimulateRequest) (sd : SimDate) (k : ℕ) :
    0 ≤ (engine_state_after r sd (k + 1)).current_savings := by
  rw [esa_savings_succ]
  exact le_max_left 0 _

theorem esa_debt_nonneg (r : TwinSimulateRequest) (sd : SimDate) (k : ℕ) :
    0 ≤ (engine_state_after r sd (k + 1)).current_debt := by
  rw [esa_debt_succ]
  exact le_max_left 0 _

theorem emi_total_nonneg (r : TwinSimulateRequest) (sd : SimDate) (k : ℕ)
    (hamt : ∀ e ∈ r.emis, 0 ≤ e.monthly_amount) :
    0 ≤ (advance_emis (engine_state_after r sd k).emis).1 := by
  rw [esa_emis, advance_emis_map]
  apply List.sum_nonneg
  intro x hx
  obtain ⟨e, he, rfl⟩ := List.mem_map.mp hx
  split_ifs
  · exact hamt e he
  · exact le_refl 0

theorem esa_debt_antitone (r : TwinSimulateRequest) (sd : SimDate) (k : ℕ)
    (hamt : ∀ e ∈ r.emis, 0 ≤ e.monthly_amount) :
    (engine_state_after r sd (k + 2)).current_debt ≤
      (engine_state_after r sd (k + 1)).current_debt := by
  rw [esa_debt_succ r sd (k + 1)]
  have h1 : 0 ≤ (engine_state_after r sd (k + 1)).current_debt := esa_debt_nonneg r sd k
  have h2 : 0 ≤ (advance_emis (engine_state_after r sd (k + 1)).emis).1 :=
    emi_total_nonneg r sd (k + 1) hamt
  have : (engine_state_after r sd (k + 1)).current_debt -
      (advance_emis (engine_state_after r sd (k + 1)).emis).1 * 0.4 ≤
      (engine_state_after r sd (k + 1)).current_debt := by nlinarith
  exact max_le (by linarith) this

/-! ### Goal allocation: sorting, allocation loop, write-back -/
theorem goal_step_wf_refl {g : GoalState} (h : g.achieved = false → g.current < g.target) :
    GoalStepWF g g :=
  ⟨rfl, rfl, rfl, rfl, le_refl _, fun h' => h', h⟩

theorem mem_insertByPriority {x p : ℕ × GoalState} {l : List (ℕ × GoalState)}
    (hp : p ∈ insertByPriority x l) : p = x ∨ p ∈ l := by
  induction l with
  | nil => simpa [insertByPriority] using hp
  | cons y ys ih =>
      unfold insertByPriority at hp
      split_ifs at hp
      · rcases List.mem_cons.mp hp with h | h
        · exact Or.inr (List.mem_cons.mpr (Or.inl h))
        · rcases ih h with h' | h'
          · exact Or.inl h'
          · exact Or.inr (List.mem_cons.mpr (Or.inr h'))
      · rcases List.mem_cons.mp hp with h | h
        · exact Or.inl h
        · exact Or.inr h

theorem mem_sortByPriority {p : ℕ × GoalState} {l : List (ℕ × GoalState)}
    (hp : p ∈ sortByPriority l) : p ∈ l := by
  induction l with
  | nil => simpa [sortByPriority] using hp
  | cons y ys ih =>
      unfold sortByPriority at hp
      rcases mem_insertByPriority hp with h | h
      · exact h ▸ List.mem_cons_self _ _
      · exact List.mem_cons.mpr (Or.inr (ih h))

theorem allocate_goals_forall₂ (l : List (ℕ × GoalState)) (rem : ℚ) (hrem : 0 ≤ rem)
    (hl : ∀ p ∈ l, p.2.achieved = false ∧ p.2.current < p.2.target) :
    List.Forall₂ (fun p q => q.1 = p.1 ∧ GoalStepWF p.2 q.2) l (allocate_goals rem l).1 := by
  induction l generalizing rem with
  | nil => simp [allocate_goals]
  | cons hd tl ih =>
      obtain ⟨i, g⟩ := hd
      obtain ⟨hach, hlt⟩ := hl (i, g) (List.mem_cons_self _ _)
      unfold allocate_goals
      by_cases h0 : rem ≤ 0
      · rw [if_pos h0]
        refine List.Forall₂.cons ⟨rfl, goal_step_wf_refl fun _ => hlt⟩ ?_
        rw [List.forall₂_same]
        intro p hp
        exact ⟨rfl, goal_step_wf_refl fun hf => ((hl p (List.mem_cons_of_mem _ hp)).2)⟩
      · rw [if_neg h0]
        dsimp only at hach hlt
        have hrem' : (0 : ℚ) < rem := not_le.mp h0
        have hneed : (0 : ℚ) < g.target - g.current := by linarith
        have hcontrib : 0 ≤ min rem (g.target - g.current) :=
          le_min (le_of_lt hrem') (le_of_lt hneed)
        refine List.Forall₂.cons ?_ ?_
        · refine ⟨rfl, ?_⟩
          dsimp only
          refine ⟨rfl, rfl, rfl, rfl,
            by show g.current ≤ g.current + min rem (g.target - g.current); linarith, ?_, ?_⟩
          · intro hg
            rw [hach] at hg
            exact absurd hg Bool.false_ne_true
          · by_cases hc : g.target ≤ g.current + min rem (g.target - g.current)
            · intro hf
              simp [hc, hach] at hf
            · intro hf
              exact not_le.mp hc
        · apply ih
          · have := min_le_left rem (g.target - g.current)
            linarith
          · intro p hp
            exact hl p (List.mem_cons_of_mem _ hp)

theorem lookup_mem {l : List (ℕ × GoalState)} {i : ℕ} {v : GoalState}
    (h : l.lookup i = some v) : (i, v) ∈ l := by
  induction l with
  | nil => simp [List.lookup] at h
  | cons hd tl ih =>
      obtain ⟨j, w⟩ := hd
      rw [List.lookup] at h
      by_cases hj : (i == j) = true
      · simp only [hj] at h
        have hij : i = j := by simpa using hj
        obtain rfl : w = v := by injection h
        subst hij
        exact List.mem_cons_self _ _
      · have hj' : (i == j) = false := by simpa using hj
        simp only [hj'] at h
        exact List.mem_cons_of_mem _ (ih h)

theorem forall₂_exists_left {α β : Type} {R : α → β → Prop} {l : List α} {l' : List β}
    (h : List.Forall₂ R l l') {b : β} (hb : b ∈ l') : ∃ a ∈ l, R a b := by
  induction h with
  | nil => simp at hb
  | cons hr hrest ih =>
      rcases List.mem_cons.mp hb with rfl | hb'
      · exact ⟨_, List.mem_cons_self _ _, hr⟩
      · obtain ⟨a, ha, hr'⟩ := ih hb'
        exact ⟨a, List.mem_cons_of_mem _ ha, hr'⟩

theorem enumFrom_get? {α : Type} : ∀ (l : List α) (n i : ℕ),
    (l.enumFrom n).get? i = (l.get? i).map fun a => (n + i, a)
  | [], n, i => by simp [List.enumFrom]
  | a :: tl, n, 0 => by simp [List.enumFrom]
  | a :: tl, n, i + 1 => by
      show (tl.enumFrom (n + 1)).get? i = (tl.get? i).map fun a => (n + (i + 1), a)
      rw [enumFrom_get? tl (n + 1) i]
      cases tl.get? i <;> simp [Nat.add_assoc, Nat.add_comm 1 i]

theorem enum_get? {α : Type} (l : List α) (i : ℕ) :
    l.enum.get? i = (l.get? i).map fun a => (i, a) := by
  show (l.enumFrom 0).get? i = (l.get? i).map fun a => (i, a)
  rw [enumFrom_get?]
  cases l.get? i <;> simp

theorem mem_enum_get? {gs : List GoalState} {i : ℕ} {g : GoalState}
    (h : (i, g) ∈ gs.enum) : gs.get? i = some g := by
  obtain ⟨j, hj⟩ := List.get?_of_mem h
  rw [enum_get? gs j] at hj
  cases hg : gs.get? j with
  | none => rw [hg] at hj; simp at hj
  | some g' =>
      rw [hg] at hj
      simp only [Option.map_some'] at hj
      obtain ⟨h1, h2⟩ := Prod.mk.injEq .. ▸ (Option.some.injEq _ _ ▸ hj)
      cases h1
      cases h2
      exact hg

theorem apply_goal_updates_get? (updates : List (ℕ × GoalState)) (gs : List GoalState) (i : ℕ) :
    (apply_goal_updates updates gs).get? i =
      (gs.get? i).map fun g =>
        match updates.lookup i with
        | some g' => g'
        | none => g := by
  unfold apply_goal_updates
  rw [List.get?_map, enum_get?]
  cases gs.get? i <;> simp

/-- `(update_goal_progress …).goals`, written out: stable-sort the unachieved
goals by priority, run the allocation loop on half the positive savings flow,
and write the mutated goals back positionally. -/
theorem ugp_goals_def (gs : List GoalState) (sf : ℚ) (d : SimDate) :
    (update_goal_progress gs sf d).goals =
      apply_goal_updates
        (allocate_goals (max 0 (sf * 0.5))
          (sortByPriority (gs.enum.filter fun p => p.2.achieved = false))).1 gs := rfl

theorem ugp_get? (gs : List GoalState) (sf : ℚ) (d : SimDate) (hwf : GoalsWF gs)
    {i : ℕ} {g : GoalState} (hg : gs.get? i = some g) :
    ∃ g', (update_goal_progress gs sf d).goals.get? i = some g' ∧ GoalStepWF g g' := by
  rw [ugp_goals_def, apply_goal_updates_get?, hg, Option.map_some']
  set updates :=
    (allocate_goals (max 0 (sf * 0.5))
      (sortByPriority (gs.enum.filter fun p => p.2.achieved = false))).1 with hupd
  cases hlk : updates.lookup i with
  | none =>
      refine ⟨g, rfl, goal_step_wf_refl ?_⟩
      exact hwf g (List.get?_mem hg)
  | some g' =>
      refine ⟨g', rfl, ?_⟩
      have hmem : (i, g') ∈ updates := lookup_mem hlk
      have hf2 := allocate_goals_forall₂
        (sortByPriority (gs.enum.filter fun p => p.2.achieved = false))
        (max 0 (sf * 0.5)) (le_max_left _ _) ?side
      · obtain ⟨p, hp, hrel⟩ := forall₂_exists_left hf2 (hupd ▸ hmem)
        obtain ⟨hidx, hstep⟩ := hrel
        have hpmem := mem_sortByPriority hp
        have hpen := (List.mem_filter.mp hpmem).1
        obtain ⟨pi, pg⟩ := p
        dsimp only at hidx
        cases hidx
        have := mem_enum_get? hpen
        rw [hg] at this
        obtain rfl : pg = g := by injection this.symm
        exact hstep
      · intro p hp
        have hpmem := mem_sortByPriority hp
        have hf := List.mem_filter.mp hpmem
        refine ⟨by simpa using hf.2, ?_⟩
        apply hwf p.2 ?_ (by simpa using hf.2)
        have := @mem_enum_get? gs p.1 p.2 (by simpa using hf.1)
        exact List.get?_mem this

theorem ugp_wf (gs : List GoalState) (sf : ℚ) (d : SimDate) (hwf : GoalsWF gs) :
    GoalsWF (update_goal_progress gs sf d).goals := by
  intro g' hg'
  obtain ⟨j, hj⟩ := List.get?_of_mem hg'
  rw [ugp_goals_def, apply_goal_updates_get?] at hj
  cases hg : gs.get? j with
  | none => rw [hg] at hj; simp at hj
  | some g =>
      obtain ⟨g'', hj', hstep⟩ := ugp_get? gs sf d hwf hg
      rw [ugp_goals_def, apply_goal_updates_get?, hg, Option.map_some'] at hj'
      rw [hg, Option.map_some'] at hj
      obtain rfl : g'' = g' := by injection hj'.symm.trans hj
      exact hstep.2.2.2.2.2.2

theorem init_goals_wf (r : TwinSimulateRequest) : GoalsWF (init_engine r).goals := by
  intro g hg hach
  unfold init_engine at hg
  obtain ⟨gi, hgi, rfl⟩ := List.mem_map.mp hg
  unfold prepare_goal at hach ⊢
  dsimp only at hach ⊢
  by_cases h : gi.target ≤ gi.current
  · rw [if_pos h] at hach
    simp at hach
  · exact not_le.mp h

theorem esa_goals_wf (r : TwinSimulateRequest) (sd : SimDate) (k : ℕ) :
    GoalsWF (engine_state_after r sd k).goals := by
  induction k with
  | zero => exact init_goals_wf r
  | succ k ih =>
      rw [esa_succ, month_step_goals]
      exact ugp_wf _ _ _ ih

theorem esa_goals_step (r : TwinSimulateRequest) (sd : SimDate) (k : ℕ)
    {i : ℕ} {g : GoalState} (hg : (engine_state_after r sd k).goals.get? i = some g) :
    ∃ g', (engine_state_after r sd (k + 1)).goals.get? i = some g' ∧ GoalStepWF g g' := by
  rw [esa_succ, month_step_goals]
  exact ugp_get? _ _ _ (esa_goals_wf r sd k) hg

/-! ### The goal allocator against the specified algorithm (§4.3) -/
theorem sorted_active_cond (gs : List GoalState) (hwf : GoalsWF gs) :
    ∀ p ∈ sortByPriority (gs.enum.filter fun p => p.2.achieved = false),
      p.2.achieved = false ∧ p.2.current < p.2.target := by
  intro p hp
  have hf := List.mem_filter.mp (mem_sortByPriority hp)
  refine ⟨by simpa using hf.2, ?_⟩
  apply hwf p.2 ?_ (by simpa using hf.2)
  obtain ⟨pi, pg⟩ := p
  exact List.get?_mem (mem_enum_get? hf.1)

theorem spec_allocate_zero (l : List (ℕ × GoalState))
    (hl : ∀ p ∈ l, p.2.achieved = false ∧ p.2.current < p.2.target) :
    spec_allocate 0 l = l := by
  induction l with
  | nil => rfl
  | cons hd tl ih =>
      obtain ⟨i, g⟩ := hd
      obtain ⟨hach, hlt⟩ := hl _ (List.mem_cons_self _ _)
      dsimp only at hach hlt
      unfold spec_allocate
      have hmin : min (0 : ℚ) (g.target - g.current) = 0 := min_eq_left (by linarith)
      rw [hmin, add_zero, sub_zero, if_neg (not_le.mpr hlt),
        ih fun p hp => hl p (List.mem_cons_of_mem _ hp)]

theorem allocate_goals_eq_spec (l : List (ℕ × GoalState)) (rem : ℚ) (hrem : 0 ≤ rem)
    (hl : ∀ p ∈ l, p.2.achieved = false ∧ p.2.current < p.2.target) :
    (allocate_goals rem l).1 = spec_allocate rem l := by
  induction l generalizing rem with
  | nil => rfl
  | cons hd tl ih =>
      obtain ⟨i, g⟩ := hd
      obtain ⟨hach, hlt⟩ := hl _ (List.mem_cons_self _ _)
      dsimp only at hach hlt
      by_cases h0 : rem ≤ 0
      · have h00 : rem = 0 := le_antisymm h0 hrem
        subst h00
        unfold allocate_goals
        rw [if_pos le_rfl]
        exact (spec_allocate_zero _ hl).symm
      · unfold allocate_goals spec_allocate
        rw [if_neg h0]
        dsimp only
        rw [ih _ (by have := min_le_left rem (g.target - g.current); linarith [not_le.mp h0])
              fun p hp => hl p (List.mem_cons_of_mem _ hp)]
        simp only [hach, eq_self_iff_true, and_true, Bool.or_false]

theorem ugp_goals_eq_spec (gs : List GoalState) (sf : ℚ) (d : SimDate) (hwf : GoalsWF gs) :
    (update_goal_progress gs sf d).goals = spec_goal_allocation gs sf := by
  rw [ugp_goals_def]
  unfold spec_goal_allocation
  have havail : max 0 sf * 0.5 = max 0 (sf * 0.5) := by
    rw [max_mul_of_nonneg _ _ (by norm_num : (0 : ℚ) ≤ 0.5), zero_mul]
  rw [havail]
  congr 1
  exact allocate_goals_eq_spec _ _ (le_max_left _ _) (sorted_active_cond gs hwf)

/-! ### Accumulators: total savings added and total debt reduced -/

theorem esa_tsa_zero (r : TwinSimulateRequest) (sd : SimDate) :
    (engine_state_after r sd 0).total_savings_added = 0 := rfl

theorem esa_tsa_succ (r : TwinSimulateRequest) (sd : SimDate) (k : ℕ) :
    (engine_state_after r sd (k + 1)).total_savings_added =
      (if 0 < month_savings_flow (SCENARIO_MODIFIERS r.scenario) (engine_state_after r sd k)
        then (engine_state_after r sd k).total_savings_added +
          month_savings_flow (SCENARIO_MODIFIERS r.scenario) (engine_state_after r sd k)
        else (engine_state_after r sd k).total_savings_added) := by
  rw [esa_succ, month_step_tsa]

theorem esa_tdr_zero (r : TwinSimulateRequest) (sd : SimDate) :
    (engine_state_after r sd 0).total_debt_reduced = 0 := rfl

theorem esa_tdr_succ (r : TwinSimulateRequest) (sd : SimDate) (k : ℕ) :
    (engine_state_after r sd (k + 1)).total_debt_reduced =
      (engine_state_after r sd k).total_debt_reduced +
        (advance_emis (engine_state_after r sd k).emis).1 * 0.4 := by
  rw [esa_succ, month_step_tdr]

theorem msf_scenario (r : TwinSimulateRequest) (s : ScenarioType) (sd : SimDate) (k : ℕ) :
    month_savings_flow (SCENARIO_MODIFIERS s)
        (engine_state_after { r with scenario := s } sd k) =
      r.current_state.monthly_income *
          (1 + (request_assumptions r).income_growth_rate) ^ (k / 12) *
          (SCENARIO_MODIFIERS s).income_multiplier -
        (r.current_state.monthly_expenses.needs *
            (1 + (request_assumptions r).inflation_rate) ^ (k / 12) *
            (SCENARIO_MODIFIERS s).needs_multiplier +
          r.current_state.monthly_expenses.wants *
            (1 + (request_assumptions r).inflation_rate) ^ (k / 12) *
            (SCENARIO_MODIFIERS s).wants_multiplier +
          (r.emis.map fun e =>
            if ((k : ℤ) + 1 ≤ e.remaining_months) then e.monthly_amount else 0).sum) := by
  unfold month_savings_flow
  rw [esa_income, esa_needs, esa_wants, esa_emis, advance_emis_map]
  rfl

theorem esa_tsa_mono_scenario (r : TwinSimulateRequest) (sd : SimDate) (s₁ s₂ : ScenarioType)
    (hinc : (SCENARIO_MODIFIERS s₁).income_multiplier = (SCENARIO_MODIFIERS s₂).income_multiplier)
    (hn : (SCENARIO_MODIFIERS s₁).needs_multiplier ≤ (SCENARIO_MODIFIERS s₂).needs_multiplier)
    (hw : (SCENARIO_MODIFIERS s₁).wants_multiplier ≤ (SCENARIO_MODIFIERS s₂).wants_multiplier)
    (hneeds : 0 ≤ r.current_state.monthly_expenses.needs)
    (hwants : 0 ≤ r.current_state.monthly_expenses.wants)
    (hinfl : 0 ≤ (request_assumptions r).inflation_rate) (k : ℕ) :
    (engine_state_after { r with scenario := s₂ } sd k).total_savings_added ≤
      (engine_state_after { r with scenario := s₁ } sd k).total_savings_added := by
  induction k with
  | zero => rw [esa_tsa_zero, esa_tsa_zero]
  | succ k ih =>
      rw [esa_tsa_succ, esa_tsa_succ]
      simp only [show ({ r with scenario := s₁ } : TwinSimulateRequest).scenario = s₁ from rfl,
        show ({ r with scenario := s₂ } : TwinSimulateRequest).scenario = s₂ from rfl]
      rw [msf_scenario, msf_scenario]
      have hp : (0 : ℚ) ≤ (1 + (request_assumptions r).inflation_rate) ^ (k / 12) :=
        pow_nonneg (by linarith) _
      have hneedsk : (0 : ℚ) ≤
          r.current_state.monthly_expenses.needs *
            (1 + (request_assumptions r).inflation_rate) ^ (k / 12) :=
        mul_nonneg hneeds hp
      have hwantsk : (0 : ℚ) ≤
          r.current_state.monthly_expenses.wants *
            (1 + (request_assumptions r).inflation_rate) ^ (k / 12) :=
        mul_nonneg hwants hp
      have h1 := mul_le_mul_of_nonneg_left hn hneedsk
      have h2 := mul_le_mul_of_nonneg_left hw hwantsk
      rw [hinc]
      split_ifs with ha hb <;> linarith

theorem min_term_succ (n : ℤ) (k : ℕ) :
    min (max n 0) ((k : ℤ) + 1) =
      min (max n 0) (k : ℤ) + (if ((k : ℤ) + 1 ≤ n) then 1 else 0) := by
  split_ifs <;> omega

theorem emi_sum_step (es : List EMIInput) (k : ℕ) :
    (es.map fun e =>
      e.monthly_amount * ((min (max e.remaining_months 0) ((k : ℤ) + 1) : ℤ) : ℚ)).sum =
    (es.map fun e =>
      e.monthly_amount * ((min (max e.remaining_months 0) (k : ℤ) : ℤ) : ℚ)).sum +
    (es.map fun e =>
      if ((k : ℤ) + 1 ≤ e.remaining_months) then e.monthly_amount else 0).sum := by
  induction es with
  | nil => simp
  | cons e tl ih =>
      simp only [List.map_cons, List.sum_cons, ih]
      have hhead : e.monthly_amount *
            ((min (max e.remaining_months 0) ((k : ℤ) + 1) : ℤ) : ℚ) =
          e.monthly_amount * ((min (max e.remaining_months 0) (k : ℤ) : ℤ) : ℚ) +
            (if ((k : ℤ) + 1 ≤ e.remaining_months) then e.monthly_amount else 0) := by
        split_ifs with h
        · rw [show min (max e.remaining_months 0) ((k : ℤ) + 1) =
                min (max e.remaining_months 0) (k : ℤ) + 1 from by omega]
          push_cast
          ring
        · rw [show min (max e.remaining_months 0) ((k : ℤ) + 1) =
                min (max e.remaining_months 0) (k : ℤ) from by omega]
          ring
      rw [hhead]
      ring

theorem esa_tdr_closed (r : TwinSimulateRequest) (sd : SimDate) (k : ℕ) :
    (engine_state_after r sd k).total_debt_reduced =
      0.4 * (r.emis.map fun e =>
        e.monthly_amount * ((min (max e.remaining_months 0) (k : ℤ) : ℤ) : ℚ)).sum := by
  induction k with
  | zero =>
      rw [esa_tdr_zero]
      have hz : (r.emis.map fun e =>
          e.monthly_amount * ((min (max e.remaining_months 0) ((0 : ℕ) : ℤ) : ℤ) : ℚ)).sum = 0 := by
        apply List.sum_eq_zero
        intro x hx
        obtain ⟨e, he, rfl⟩ := List.mem_map.mp hx
        rw [show min (max e.remaining_months 0) ((0 : ℕ) : ℤ) = 0 from by omega]
        norm_num
      rw [hz, mul_zero]
  | succ k ih =>
      rw [esa_tdr_succ, ih, esa_emis, advance_emis_map]
      dsimp only
      rw [show ((k + 1 : ℕ) : ℤ) = (k : ℤ) + 1 from by push_cast; ring, emi_sum_step]
      ring

theorem summary_tsa (r : TwinSimulateRequest) (sd : SimDate) :
    (summary_twin r sd).total_savings_added =
      round_currency ((engine_state_after r sd r.projection_months).total_savings_added) := rfl

theorem summary_tdr (r : TwinSimulateRequest) (sd : SimDate) :
    (summary_twin r sd).total_debt_reduced =
      round_currency ((engine_state_after r sd r.projection_months).total_debt_reduced) := rfl

/-! ### Remaining snapshot-field helpers -/

theorem snapshot_at_expenses_emis (r : TwinSimulateRequest) (sd : SimDate) (k : ℕ) :
    (snapshot_at r sd (k + 1)).expenses.emis =
      round_currency ((r.emis.map fun e =>
        if ((k : ℤ) + 1 ≤ e.remaining_months) then e.monthly_amount else 0).sum) := by
  unfold snapshot_at
  rw [sm_snd_expenses_emis]
  simp only [Nat.add_sub_cancel]
  rw [esa_emis, advance_emis_map]

theorem snapshot_at_income (r : TwinSimulateRequest) (sd : SimDate) (k : ℕ) :
    (snapshot_at r sd (k + 1)).income =
      round_currency (r.current_state.monthly_income *
        (1 + (request_assumptions r).income_growth_rate) ^ (k / 12) *
        (SCENARIO_MODIFIERS r.scenario).income_multiplier) := by
  unfold snapshot_at
  rw [sm_snd_income]
  simp only [Nat.add_sub_cancel]
  rw [esa_income]

theorem snapshot_at_needs (r : TwinSimulateRequest) (sd : SimDate) (k : ℕ) :
    (snapshot_at r sd (k + 1)).expenses.needs =
      round_currency (r.current_state.monthly_expenses.needs *
        (1 + (request_assumptions r).inflation_rate) ^ (k / 12) *
        (SCENARIO_MODIFIERS r.scenario).needs_multiplier) := by
  unfold snapshot_at
  rw [sm_snd_expenses_needs]
  simp only [Nat.add_sub_cancel]
  rw [esa_needs]

theorem snapshot_at_wants (r : TwinSimulateRequest) (sd : SimDate) (k : ℕ) :
    (snapshot_at r sd (k + 1)).expenses.wants =
      round_currency (r.current_state.monthly_expenses.wants *
        (1 + (request_assumptions r).inflation_rate) ^ (k / 12) *
        (SCENARIO_MODIFIERS r.scenario).wants_multiplier) := by
  unfold snapshot_at
  rw [sm_snd_expenses_wants]
  simp only [Nat.add_sub_cancel]
  rw [esa_wants]

theorem simulate_twin_get_inv (r : TwinSimulateRequest) (sd : SimDate) {j : ℕ}
    {s : MonthlySnapshot} (h : (simulate_twin r sd).get? j = some s) :
    j < r.projection_months ∧ s = snapshot_at r sd (j + 1) := by
  have hj : j < (simulate_twin r sd).length := by
    by_contra hle
    rw [List.get?_eq_none.mpr (le_of_not_lt hle)] at h
    exact Option.noConfusion h
  rw [simulate_twin_length] at hj
  have h2 := simulate_twin_get r sd hj
  rw [h] at h2
  exact ⟨hj, by injection h2⟩

theorem esa_tdr_range (r : TwinSimulateRequest) (sd : SimDate) (k : ℕ) :
    (engine_state_after r sd k).total_debt_reduced =
      0.4 * ((List.range k).map fun j =>
        (advance_emis (engine_state_after r sd j).emis).1).sum := by
  induction k with
  | zero => rw [esa_tdr_zero]; simp
  | succ k ih =>
      rw [esa_tdr_succ, ih, List.range_succ, List.map_append, List.sum_append]
      simp only [List.map_cons, List.map_nil, List.sum_cons, List.sum_nil]
      ring

/-! ### Claim theorems -/

/-- C2: in every simulated month, the engine's goal update distributes
exactly `max(0, savingsFlow) × 0.5` as available cash over the goals not yet
achieved, stable-sorted ascending by priority (ties broken by input order),
funding each by `min(remaining cash, goal shortfall)` in that order until
cash runs out or all goals are funded — i.e. the goal list after month
`k + 1` is exactly `spec_goal_allocation`, the allocator written from the
specification's words, applied to the month's savings flow. -/
theorem goal_allocation_follows_spec (r : TwinSimulateRequest) (sd : SimDate) (k : ℕ) :
    (engine_state_after r sd (k + 1)).goals =
      spec_goal_allocation (engine_state_after r sd k).goals
        (month_savings_flow (SCENARIO_MODIFIERS r.scenario) (engine_state_after r sd k)) := by
  rw [esa_succ, month_step_goals]
  exact ugp_goals_eq_spec _ _ _ (esa_goals_wf r sd k)

/-- C5: each month the savings return is computed on the pre-flow balance as
`currentSavings × (annualReturnRate / 12)` and the new balance is
`max(0, currentSavings + savingsFlow + savingsReturn)`; consequently every
snapshot's `cumulative_savings` is non-negative, however negative the
month's flow. -/
theorem savings_update_and_floor :
    (∀ (r : TwinSimulateRequest) (sd : SimDate) (k : ℕ),
      (engine_state_after r sd (k + 1)).current_savings =
        max 0 ((engine_state_after r sd k).current_savings +
          month_savings_flow (SCENARIO_MODIFIERS r.scenario) (engine_state_after r sd k) +
          (engine_state_after r sd k).current_savings *
            ((request_assumptions r).savings_return_rate / 12))) ∧
    (∀ (r : TwinSimulateRequest) (sd : SimDate) (s : MonthlySnapshot),
      s ∈ simulate_twin r sd → 0 ≤ s.cumulative_savings) := by
  constructor
  · intro r sd k
    exact esa_savings_succ r sd k
  · intro r sd s hs
    obtain ⟨j, hj, rfl⟩ := mem_simulate_twin r sd hs
    rw [snapshot_at_savings]
    exact round_currency_nonneg (esa_savings_nonneg r sd j)

/-- Witness for C5: the single snapshot of `c5_request` is a member of the
run and its `cumulative_savings` is non-negative despite the negative flow. -/
theorem savings_floor_witness :
    snapshot_at c5_request ⟨2024, 1, 1⟩ 1 ∈ simulate_twin c5_request ⟨2024, 1, 1⟩ ∧
      0 ≤ (snapshot_at c5_request ⟨2024, 1, 1⟩ 1).cumulative_savings := by
  have hmem : snapshot_at c5_request ⟨2024, 1, 1⟩ 1 ∈ simulate_twin c5_request ⟨2024, 1, 1⟩ := by
    rw [show simulate_twin c5_request ⟨2024, 1, 1⟩ = [snapshot_at c5_request ⟨2024, 1, 1⟩ 1] from by
      simp [simulate_twin, c5_request, List.range_succ]]
    exact List.mem_singleton.mpr rfl
  exact ⟨hmem, savings_update_and_floor.2 c5_request ⟨2024, 1, 1⟩ _ hmem⟩

/-- C6: each month the debt balance becomes
`max(0, debt − 0.4 × month's obligation payments)`; hence across the
snapshot sequence `debt_remaining` is non-increasing month over month and
never negative (given non-negative obligation amounts, as the schema
enforces). -/
theorem debt_reduction_monotone (r : TwinSimulateRequest) (sd : SimDate)
    (hamt : ∀ e ∈ r.emis, 0 ≤ e.monthly_amount) :
    (∀ k : ℕ, (engine_state_after r sd (k + 1)).current_debt =
        max 0 ((engine_state_after r sd k).current_debt -
          (advance_emis (engine_state_after r sd k).emis).1 * 0.4)) ∧
    (∀ (j : ℕ) (s s' : MonthlySnapshot), (simulate_twin r sd).get? j = some s →
        (simulate_twin r sd).get? (j + 1) = some s' →
        s'.debt_remaining ≤ s.debt_remaining) ∧
    (∀ s ∈ simulate_twin r sd, 0 ≤ s.debt_remaining) := by
  refine ⟨fun k => esa_debt_succ r sd k, ?_, ?_⟩
  · intro j s s' hs hs'
    obtain ⟨hj, rfl⟩ := simulate_twin_get_inv r sd hs
    obtain ⟨hj', rfl⟩ := simulate_twin_get_inv r sd hs'
    rw [snapshot_at_debt, snapshot_at_debt]
    exact round_currency_mono (esa_debt_antitone r sd j hamt)
  · intro s hs
    obtain ⟨j, hj, rfl⟩ := mem_simulate_twin r sd hs
    rw [snapshot_at_debt]
    exact round_currency_nonneg (esa_debt_nonneg r sd j)

/-- Witness for C6 at `c6_request`: the obligation amounts are non-negative
and the debt recurrence, monotonicity and floor hold for its run. -/
theorem debt_monotone_witness :
    (∀ e ∈ c6_request.emis, 0 ≤ e.monthly_amount) ∧
    (∀ k : ℕ, (engine_state_after c6_request ⟨2024, 1, 1⟩ (k + 1)).current_debt =
        max 0 ((engine_state_after c6_request ⟨2024, 1, 1⟩ k).current_debt -
          (advance_emis (engine_state_after c6_request ⟨2024, 1, 1⟩ k).emis).1 * 0.4)) ∧
    (∀ (j : ℕ) (s s' : MonthlySnapshot),
        (simulate_twin c6_request ⟨2024, 1, 1⟩).get? j = some s →
        (simulate_twin c6_request ⟨2024, 1, 1⟩).get? (j + 1) = some s' →
        s'.debt_remaining ≤ s.debt_remaining) ∧
    (∀ s ∈ simulate_twin c6_request ⟨2024, 1, 1⟩, 0 ≤ s.debt_remaining) := by
  have hamt : ∀ e ∈ c6_request.emis, 0 ≤ e.monthly_amount := by
    intro e he
    simp only [c6_request, List.mem_singleton] at he
    subst he
    norm_num
  exact ⟨hamt, debt_reduction_monotone c6_request ⟨2024, 1, 1⟩ hamt⟩

/-- C8: an annual adjustment multiplies the running income baseline by
`1 + growthRate` and the needs/wants baselines by `1 + inflationRate` on
months 12, 24, …, after that month's snapshot; so the snapshot of month `m`
shows the baselines compounded `⌊(m−1)/12⌋` times — month 12 is unaffected,
month 13 onward shows one more compounding. -/
theorem annual_adjustment_schedule (r : TwinSimulateRequest) (sd : SimDate) (m : ℕ)
    (h1 : 1 ≤ m) (h2 : m ≤ r.projection_months) :
    ((simulate_twin r sd).get? (m - 1)).map (fun s => s.income) =
      some (round_currency (r.current_state.monthly_income *
        (1 + (request_assumptions r).income_growth_rate) ^ ((m - 1) / 12) *
        (SCENARIO_MODIFIERS r.scenario).income_multiplier)) ∧
    ((simulate_twin r sd).get? (m - 1)).map (fun s => s.expenses.needs) =
      some (round_currency (r.current_state.monthly_expenses.needs *
        (1 + (request_assumptions r).inflation_rate) ^ ((m - 1) / 12) *
        (SCENARIO_MODIFIERS r.scenario).needs_multiplier)) ∧
    ((simulate_twin r sd).get? (m - 1)).map (fun s => s.expenses.wants) =
      some (round_currency (r.current_state.monthly_expenses.wants *
        (1 + (request_assumptions r).inflation_rate) ^ ((m - 1) / 12) *
        (SCENARIO_MODIFIERS r.scenario).wants_multiplier)) := by
  obtain ⟨j, rfl⟩ : ∃ j, m = j + 1 := ⟨m - 1, by omega⟩
  simp only [Nat.add_sub_cancel]
  rw [simulate_twin_get r sd (by omega)]
  refine ⟨?_, ?_, ?_⟩
  · rw [Option.map_some', snapshot_at_income]
  · rw [Option.map_some', snapshot_at_needs]
  · rw [Option.map_some', snapshot_at_wants]

/-- Witness for C8 at `c8_request`, month 1: zero compoundings applied. -/
theorem annual_adjustment_witness :
    1 ≤ (1 : ℕ) ∧ 1 ≤ c8_request.projection_months ∧
      ((simulate_twin c8_request ⟨2024, 1, 1⟩).get? 0).map (fun s => s.income) =
        some (round_currency (c8_request.current_state.monthly_income *
          (1 + (request_assumptions c8_request).income_growth_rate) ^ 0 *
          (SCENARIO_MODIFIERS c8_request.scenario).income_multiplier)) :=
  ⟨by norm_num, by norm_num [c8_request],
    (annual_adjustment_schedule c8_request ⟨2024, 1, 1⟩ 1 (by norm_num)
      (by norm_num [c8_request])).1⟩

/-- C3: month `m`'s snapshot charges `expenses.emis` with exactly the
obligations whose input `remaining_months` is at least `m`, so an obligation
with `remaining_months = n` contributes for months `1..n` and nothing from
month `n+1` on; and once an obligation's months are used up (`k ≥ n ≥ 1`
loop iterations done) its `active` flag is `false` and stays `false`. -/
theorem obligation_termination (r : TwinSimulateRequest) (sd : SimDate) (m : ℕ)
    (h1 : 1 ≤ m) (h2 : m ≤ r.projection_months) :
    ((simulate_twin r sd).get? (m - 1)).map (fun s => s.expenses.emis) =
      some (round_currency ((r.emis.map fun e =>
        if ((m : ℤ) ≤ e.remaining_months) then e.monthly_amount else 0).sum)) ∧
    (∀ (i : ℕ) (e : EMIInput), r.emis.get? i = some e → 1 ≤ e.remaining_months →
      ∀ k : ℕ, e.remaining_months ≤ (k : ℤ) →
        ((engine_state_after r sd k).emis.get? i).map (fun x => x.active) = some false) := by
  constructor
  · obtain ⟨j, rfl⟩ : ∃ j, m = j + 1 := ⟨m - 1, by omega⟩
    simp only [Nat.add_sub_cancel]
    rw [simulate_twin_get r sd (by omega), Option.map_some', snapshot_at_expenses_emis]
    norm_cast
  · intro i e he hn k hk
    rw [esa_emis, List.get?_map, he, Option.map_some', Option.map_some']
    congr 1
    unfold emi_after
    dsimp only
    rw [if_neg (by omega), if_neg (by omega)]

/-- Witness for C3 at `c3_request`, month 7: just past the obligation's
term, the snapshot's `expenses.emis` comes only from obligations with at
least seven months remaining (here: none). -/
theorem obligation_termination_witness :
    1 ≤ (7 : ℕ) ∧ 7 ≤ c3_request.projection_months ∧
      ((simulate_twin c3_request ⟨2024, 1, 1⟩).get? 6).map (fun s => s.expenses.emis) =
        some (round_currency ((c3_request.emis.map fun e =>
          if ((7 : ℤ) ≤ e.remaining_months) then e.monthly_amount else 0).sum)) :=
  ⟨by norm_num, by norm_num [c3_request],
    (obligation_termination c3_request ⟨2024, 1, 1⟩ 7 (by norm_num)
      (by norm_num [c3_request])).1⟩

/-- C9: with identical inputs, the summary's `total_savings_added` is
ordered across the three savings scenarios: baseline ≤ increased_savings ≤
aggressive_savings (the tighter scenarios only lower the expense
multipliers, so every month's savings flow is pointwise at least as
large). -/
theorem scenario_savings_ordering (r : TwinSimulateRequest) (sd : SimDate)
    (hneeds : 0 ≤ r.current_state.monthly_expenses.needs)
    (hwants : 0 ≤ r.current_state.monthly_expenses.wants)
    (hinfl : 0 ≤ (request_assumptions r).inflation_rate) :
    (summary_twin { r with scenario := ScenarioType.baseline } sd).total_savings_added ≤
      (summary_twin { r with scenario := ScenarioType.increased_savings } sd).total_savings_added ∧
    (summary_twin { r with scenario := ScenarioType.increased_savings } sd).total_savings_added ≤
      (summary_twin { r with scenario := ScenarioType.aggressive_savings } sd).total_savings_added := by
  constructor
  · rw [summary_tsa, summary_tsa]
    exact round_currency_mono (esa_tsa_mono_scenario r sd ScenarioType.increased_savings
      ScenarioType.baseline (by norm_num [SCENARIO_MODIFIERS]) (by norm_num [SCENARIO_MODIFIERS])
      (by norm_num [SCENARIO_MODIFIERS]) hneeds hwants hinfl r.projection_months)
  · rw [summary_tsa, summary_tsa]
    exact round_currency_mono (esa_tsa_mono_scenario r sd ScenarioType.aggressive_savings
      ScenarioType.increased_savings (by norm_num [SCENARIO_MODIFIERS])
      (by norm_num [SCENARIO_MODIFIERS]) (by norm_num [SCENARIO_MODIFIERS])
      hneeds hwants hinfl r.projection_months)

/-- Witness for C9 at `c9_request`. -/
theorem scenario_ordering_witness :
    (0 ≤ c9_request.current_state.monthly_expenses.needs) ∧
    (0 ≤ c9_request.current_state.monthly_expenses.wants) ∧
    (0 ≤ (request_assumptions c9_request).inflation_rate) ∧
    ((summary_twin { c9_request with scenario := ScenarioType.baseline }
        ⟨2024, 1, 1⟩).total_savings_added ≤
      (summary_twin { c9_request with scenario := ScenarioType.increased_savings }
        ⟨2024, 1, 1⟩).total_savings_added ∧
    (summary_twin { c9_request with scenario := ScenarioType.increased_savings }
        ⟨2024, 1, 1⟩).total_savings_added ≤
      (summary_twin { c9_request with scenario := ScenarioType.aggressive_savings }
        ⟨2024, 1, 1⟩).total_savings_added) :=
  ⟨by norm_num [c9_request], by norm_num [c9_request],
    by norm_num [c9_request, request_assumptions, DEFAULT_ASSUMPTIONS],
    scenario_savings_ordering c9_request ⟨2024, 1, 1⟩ (by norm_num [c9_request])
      (by norm_num [c9_request])
      (by norm_num [c9_request, request_assumptions, DEFAULT_ASSUMPTIONS])⟩

/-- C10: the summary's `total_debt_reduced` is 40% of the sum of all monthly
obligation payments over the horizon, accumulated unconditionally every
month (the formula never consults the debt balance, so months with zero
remaining debt still count); at `c10_request` (zero initial debt, one
obligation) it is strictly greater than the actual fall in debt. -/
theorem total_debt_reduced_overcounts :
    (∀ (r : TwinSimulateRequest) (sd : SimDate),
      (summary_twin r sd).total_debt_reduced =
        round_currency (0.4 * ((List.range r.projection_months).map fun j =>
          (advance_emis (engine_state_after r sd j).emis).1).sum)) ∧
    (summary_twin c10_request ⟨2024, 1, 1⟩).total_debt_reduced >
      c10_request.current_state.debt -
        (summary_twin c10_request ⟨2024, 1, 1⟩).final_debt := by
  constructor
  · intro r sd
    rw [summary_tdr, esa_tdr_range]
  · norm_num [c10_request, summary_twin, get_summary, simulate_twin, snapshot_at,
      engine_state_after, month_step, init_engine, simulate_month, request_assumptions,
      SCENARIO_MODIFIERS, update_goal_progress, advance_emis, advance_emi, prepare_emi,
      month_savings_flow, List.range_succ, round_currency, roundHalfUpInt,
      apply_goal_updates, allocate_goals, sortByPriority, List.getLast?]

/-- C1 counterexample: the same request simulated from two different
`date.today()` values yields different snapshot sequences (here the goal's
`on_track` flag flips; the snapshot `date` strings differ too), so the
output is not a function of the request alone. -/
theorem simulation_depends_on_clock :
    simulate_twin c1_request ⟨2024, 1, 1⟩ ≠ simulate_twin c1_request ⟨2025, 1, 1⟩ := by
  intro h
  have h2 := congrArg (List.map fun s => s.goal_progress.map fun e => e.on_track) h
  rw [show (simulate_twin c1_request ⟨2024, 1, 1⟩).map
        (fun s => s.goal_progress.map fun e => e.on_track) = [[true]] from by
      norm_num [simulate_twin, c1_request, snapshot_at, engine_state_after, month_step,
        init_engine, simulate_month, request_assumptions, SCENARIO_MODIFIERS,
        update_goal_progress, advance_emis, prepare_goal, sortByPriority, insertByPriority,
        allocate_goals, apply_goal_updates, add_months, dateLE, List.range_succ, List.enum,
        List.enumFrom, List.lookup, month_savings_flow],
    show (simulate_twin c1_request ⟨2025, 1, 1⟩).map
        (fun s => s.goal_progress.map fun e => e.on_track) = [[false]] from by
      norm_num [simulate_twin, c1_request, snapshot_at, engine_state_after, month_step,
        init_engine, simulate_month, request_assumptions, SCENARIO_MODIFIERS,
        update_goal_progress, advance_emis, prepare_goal, sortByPriority, insertByPriority,
        allocate_goals, apply_goal_updates, add_months, dateLE, List.range_succ, List.enum,
        List.enumFrom, List.lookup, month_savings_flow]] at h2
  simp at h2

/-- C1 amended: for a fixed start date the simulation is a pure function of
the request, and every snapshot field other than the `date` string and the
per-goal `on_track` flags is independent of the start date altogether. -/
theorem simulation_deterministic_modulo_clock (r : TwinSimulateRequest) (sd sd' : SimDate) :
    (simulate_twin r sd).map stripClock = (simulate_twin r sd').map stripClock := by
  unfold simulate_twin
  rw [List.map_map, List.map_map]
  congr 1
  funext j
  show stripClock (snapshot_at r sd (j + 1)) = stripClock (snapshot_at r sd' (j + 1))
  unfold snapshot_at
  rw [esa_date_indep r sd sd' (j + 1 - 1)]
  exact stripClock_sm_date_indep _ _ _ _ sd sd'

/-- C4 counterexample: at `c4_request` the first snapshot has
`networth = 0.00` but `cumulative_savings + assets − debt_remaining =
0.01 + 0 − 0.00`, because the three fields are rounded separately. -/
theorem networth_identity_fails_on_rounded_fields :
    ¬ (∀ s ∈ simulate_twin c4_request ⟨2024, 1, 1⟩,
        s.networth = s.cumulative_savings + c4_request.current_state.assets -
          s.debt_remaining) := by
  intro hall
  have h0 : ((simulate_twin c4_request ⟨2024, 1, 1⟩).get? 0).map
      (fun s => (s.networth, s.cumulative_savings, s.debt_remaining)) =
      some (0, 1/100, 0) := by
    norm_num [simulate_twin, c4_request, snapshot_at, engine_state_after, month_step,
      init_engine, simulate_month, request_assumptions, SCENARIO_MODIFIERS,
      update_goal_progress, advance_emis, sortByPriority, allocate_goals,
      apply_goal_updates, List.range_succ, List.enum, List.enumFrom,
      month_savings_flow, round_currency, roundHalfUpInt]
  cases hL : (simulate_twin c4_request ⟨2024, 1, 1⟩).get? 0 with
  | none => rw [hL] at h0; exact Option.noConfusion h0
  | some s =>
      have hmem : s ∈ simulate_twin c4_request ⟨2024, 1, 1⟩ := List.get?_mem hL
      have heq := hall s hmem
      rw [hL, Option.map_some'] at h0
      simp only [Option.some.injEq, Prod.mk.injEq] at h0
      obtain ⟨hn, hc, hd⟩ := h0
      rw [hn, hc, hd] at heq
      norm_num [c4_request] at heq

/-- C4 amended: the net-worth identity holds exactly on the engine's
pre-rounding running values — the `networth` field is
`round_currency(savings + assets − debt)` with assets constant — while the
identity over the separately rounded snapshot fields only holds up to a
rounding discrepancy of at most 0.015. -/
theorem networth_identity_amended (r : TwinSimulateRequest) (sd : SimDate) (m : ℕ)
    (h1 : 1 ≤ m) (h2 : m ≤ r.projection_months) :
    ∃ s, (simulate_twin r sd).get? (m - 1) = some s ∧
      s.networth = round_currency ((engine_state_after r sd m).current_savings +
        r.current_state.assets - (engine_state_after r sd m).current_debt) ∧
      (engine_state_after r sd m).current_assets = r.current_state.assets ∧
      |s.networth - (s.cumulative_savings + r.current_state.assets - s.debt_remaining)| ≤
        3 / 200 := by
  obtain ⟨j, rfl⟩ : ∃ j, m = j + 1 := ⟨m - 1, by omega⟩
  simp only [Nat.add_sub_cancel]
  refine ⟨snapshot_at r sd (j + 1), simulate_twin_get r sd (by omega), ?_,
    esa_assets r sd (j + 1), ?_⟩
  · exact snapshot_at_networth r sd j
  · rw [snapshot_at_networth, snapshot_at_savings, snapshot_at_debt]
    have d1 := round_currency_dist ((engine_state_after r sd (j + 1)).current_savings +
      r.current_state.assets - (engine_state_after r sd (j + 1)).current_debt)
    have d2 := round_currency_dist ((engine_state_after r sd (j + 1)).current_savings)
    have d3 := round_currency_dist ((engine_state_after r sd (j + 1)).current_debt)
    rw [abs_le] at d1 d2 d3 ⊢
    constructor <;> linarith [d1.1, d1.2, d2.1, d2.2, d3.1, d3.2]

/-- Witness for the amended C4 at `c4_request`, month 1. -/
theorem networth_amended_witness :
    1 ≤ (1 : ℕ) ∧ 1 ≤ c4_request.projection_months ∧
      ∃ s, (simulate_twin c4_request ⟨2024, 1, 1⟩).get? 0 = some s ∧
        s.networth = round_currency
          ((engine_state_after c4_request ⟨2024, 1, 1⟩ 1).current_savings +
            c4_request.current_state.assets -
            (engine_state_after c4_request ⟨2024, 1, 1⟩ 1).current_debt) ∧
        (engine_state_after c4_request ⟨2024, 1, 1⟩ 1).current_assets =
          c4_request.current_state.assets ∧
        |s.networth - (s.cumulative_savings + c4_request.current_state.assets -
          s.debt_remaining)| ≤ 3 / 200 :=
  ⟨by norm_num, by norm_num [c4_request],
    networth_identity_amended c4_request ⟨2024, 1, 1⟩ 1 (by norm_num)
      (by norm_num [c4_request])⟩

/-- C7: for every goal, across consecutive snapshots the reported `current`
amount never decreases, and once the `achieved` flag is true it stays
true. -/
theorem goal_progress_monotone (r : TwinSimulateRequest) (sd : SimDate) (j i : ℕ)
    (s s' : MonthlySnapshot) (e e' : GoalProgressEntry)
    (hs : (simulate_twin r sd).get? j = some s)
    (hs' : (simulate_twin r sd).get? (j + 1) = some s')
    (he : s.goal_progress.get? i = some e)
    (he' : s'.goal_progress.get? i = some e') :
    e.current ≤ e'.current ∧ (e.achieved = true → e'.achieved = true) := by
  obtain ⟨hj, rfl⟩ := simulate_twin_get_inv r sd hs
  obtain ⟨hj', rfl⟩ := simulate_twin_get_inv r sd hs'
  rw [snapshot_at_goal_progress, List.get?_map] at he he'
  cases hg : (engine_state_after r sd (j + 1)).goals.get? i with
  | none => rw [hg] at he; exact Option.noConfusion he
  | some g =>
      rw [hg, Option.map_some'] at he
      have he2 := Option.some.inj he
      obtain ⟨g', hg', hstep⟩ := esa_goals_step r sd (j + 1) hg
      rw [hg', Option.map_some'] at he'
      have he2' := Option.some.inj he'
      subst he2
      subst he2'
      exact ⟨round_currency_mono hstep.2.2.2.2.1, hstep.2.2.2.2.2.1⟩

/-- Witness for C7 at `c7_request`: the goal's reported `current` goes from
50 in month 1 to 100 in month 2. -/
theorem goal_monotone_witness :
    (simulate_twin c7_request ⟨2024, 1, 1⟩).get? 0 =
        some (snapshot_at c7_request ⟨2024, 1, 1⟩ 1) ∧
    (simulate_twin c7_request ⟨2024, 1, 1⟩).get? 1 =
        some (snapshot_at c7_request ⟨2024, 1, 1⟩ 2) ∧
    (snapshot_at c7_request ⟨2024, 1, 1⟩ 1).goal_progress.get? 0 =
        some { name := "g", target := 1000, current := 50, progress_percent := 5,
               remaining := 950, achieved := false, on_track := true } ∧
    (snapshot_at c7_request ⟨2024, 1, 1⟩ 2).goal_progress.get? 0 =
        some { name := "g", target := 1000, current := 100, progress_percent := 10,
               remaining := 900, achieved := false, on_track := true } ∧
    ((50 : ℚ) ≤ 100 ∧ (false = true → false = true)) := by
  have h1 : (simulate_twin c7_request ⟨2024, 1, 1⟩).get? 0 =
      some (snapshot_at c7_request ⟨2024, 1, 1⟩ 1) :=
    simulate_twin_get c7_request ⟨2024, 1, 1⟩ (by norm_num [c7_request])
  have h2 : (simulate_twin c7_request ⟨2024, 1, 1⟩).get? 1 =
      some (snapshot_at c7_request ⟨2024, 1, 1⟩ 2) :=
    simulate_twin_get c7_request ⟨2024, 1, 1⟩ (by norm_num [c7_request])
  have h3 : (snapshot_at c7_request ⟨2024, 1, 1⟩ 1).goal_progress.get? 0 =
      some { name := "g", target := 1000, current := 50, progress_percent := 5,
             remaining := 950, achieved := false, on_track := true } := by
    norm_num [c7_request, snapshot_at, engine_state_after, month_step, init_engine,
      simulate_month, request_assumptions, SCENARIO_MODIFIERS, update_goal_progress,
      advance_emis, prepare_goal, sortByPriority, insertByPriority, allocate_goals,
      apply_goal_updates, add_months, dateLE, List.enum, List.enumFrom, List.lookup,
      month_savings_flow, round_currency, roundHalfUpInt, pyRound2, roundHalfEvenInt]
  have h4 : (snapshot_at c7_request ⟨2024, 1, 1⟩ 2).goal_progress.get? 0 =
      some { name := "g", target := 1000, current := 100, progress_percent := 10,
             remaining := 900, achieved := false, on_track := true } := by
    norm_num [c7_request, snapshot_at, engine_state_after, month_step, init_engine,
      simulate_month, request_assumptions, SCENARIO_MODIFIERS, update_goal_progress,
      advance_emis, prepare_goal, sortByPriority, insertByPriority, allocate_goals,
      apply_goal_updates, add_months, dateLE, List.enum, List.enumFrom, List.lookup,
      month_savings_flow, round_currency, roundHalfUpInt, pyRound2, roundHalfEvenInt]
  exact ⟨h1, h2, h3, h4,
    goal_progress_monotone c7_request ⟨2024, 1, 1⟩ 0 0 _ _ _ _ h1 h2 h3 h4⟩
